import Mathlib

/-!
Verification of the fasal-setu decision-engine core (py/decision_engine)
against its natural-language specification.

The Python sources are shallowly embedded:
Python numbers (ints and floats) are modelled as exact rationals,
Python values (dicts, lists, strings, numbers, None) as a `Json` tree,
raising Python code as `Except PyExc`, and each relevant function of the
repository as a Lean definition that follows the source line by line.

To keep every definition evaluable by the kernel (`decide`), rational
arithmetic is performed through wrappers (`qAdd`, `qMul`, ...) built on
`mkRat`; each wrapper is proved equal to the corresponding field
operation of `ℚ` (`qAdd_eq`, ...), so spec-level reasoning happens in
ordinary `ℚ` arithmetic.  String operations are likewise implemented on
the character list of a `String` because the library versions do not
reduce in the kernel.  Message strings coming from the source are
reproduced verbatim except that apostrophes are elided (no claim reads
the prose of a note).  Python float formatting inside f-strings, the
wall-clock `decision_timestamp`, and logging are modelled abstractly; no
claim depends on them.
-/

namespace FasalSetu

/-! ## Kernel-evaluable rational arithmetic

`mkRat` (unlike `Rat.add`, `Rat.mul`, ... which are `irreducible`)
reduces inside the kernel, so all arithmetic of the embedding is
expressed through it.  The `_eq` lemmas identify each wrapper with the
corresponding `ℚ` field operation. -/

def qAdd (a b : ℚ) : ℚ := mkRat (a.num * b.den + b.num * a.den) (a.den * b.den)

def qNeg (a : ℚ) : ℚ := mkRat (-a.num) a.den

def qSub (a b : ℚ) : ℚ := qAdd a (qNeg b)

def qMul (a b : ℚ) : ℚ := mkRat (a.num * b.num) (a.den * b.den)

def qDiv (a b : ℚ) : ℚ := mkRat (Int.sign b.num * a.num * b.den) (a.den * b.num.natAbs)

/-- Boolean a ≤ b on rationals by cross multiplication (kernel friendly). -/
def qLeB (a b : ℚ) : Bool := decide (a.num * (b.den : Int) ≤ b.num * (a.den : Int))

/-- Boolean a < b on rationals by cross multiplication (kernel friendly). -/
def qLtB (a b : ℚ) : Bool := decide (a.num * (b.den : Int) < b.num * (a.den : Int))

def qMin (a b : ℚ) : ℚ := if qLeB a b then a else b

def qMax (a b : ℚ) : ℚ := if qLeB a b then b else a

/-- Python max(0.0, min(1.0, x)). -/
def qClamp01 (x : ℚ) : ℚ := qMax 0 (qMin 1 x)

/-- Floor of a rational as an integer, through integer floor division. -/
def qFloor (a : ℚ) : Int := a.num.fdiv a.den

/-- Model of Python round(x, n): round half up at the n-th decimal.
CPython rounds half to even on binary floats; the two agree except on
exact midpoints, which no claim exercises. -/
def pyRound (x : ℚ) (n : Nat) : ℚ :=
qDiv (qFloor (qAdd (qMul x (10 ^ n : Nat)) (mkRat 1 2)) : Int) ((10 ^ n : Nat) : ℚ)

def qSum : List ℚ → ℚ
  | [] => 0
  | x :: xs => qAdd x (qSum xs)

/-- statistics.mean (callers guard against the empty list). -/
def qMean (xs : List ℚ) : ℚ := qDiv (qSum xs) (xs.length : ℚ)

/-! ## Kernel-evaluable string primitives

`String.toLower`, `String.lt`, substring search and similar library
functions operate on byte positions and do not reduce in the kernel, so
the embedding works on the character list of a string.  `str.lower()` is
modelled on ASCII letters (the repository compares ASCII tool, crop and
pest names only). -/

def charLower (c : Char) : Char :=
  if c.toNat ≥ 65 ∧ c.toNat ≤ 90 then Char.ofNat (c.toNat + 32) else c

/-- Python str.lower (ASCII). -/
def pyLower (s : String) : String := ⟨s.data.map charLower⟩

def clLt : List Char → List Char → Bool
  | [], [] => false
  | [], _ :: _ => true
  | _ :: _, [] => false
  | a :: as, b :: bs =>
    if a.toNat < b.toNat then true
    else if b.toNat < a.toNat then false
    else clLt as bs

/-- Lexicographic string comparison (Python sorts ISO date strings this way;
normalised ISO timestamps of equal shape compare chronologically). -/
def strLtB (a b : String) : Bool := clLt a.data b.data

def strLeB (a b : String) : Bool := !(strLtB b a)

def isPrefixCl : List Char → List Char → Bool
  | [], _ => true
  | _ :: _, [] => false
  | a :: as, b :: bs => a == b && isPrefixCl as bs

def isInfixCl (needle : List Char) : List Char → Bool
  | [] => isPrefixCl needle []
  | b :: bs => isPrefixCl needle (b :: bs) || isInfixCl needle bs

/-- Python substring test: needle in hay. -/
def strIn (needle hay : String) : Bool := isInfixCl needle.data hay.data

/-- Python str.replace for single characters (used for crop ids). -/
def strReplaceChar (s : String) (a b : Char) : String :=
  ⟨s.data.map (fun c => if c == a then b else c)⟩

def strStripSpaces (s : String) : String :=
  ⟨(((s.data.dropWhile (· == ' ')).reverse.dropWhile (· == ' ')).reverse)⟩

/-! ## Python values

`Json` models the dynamically typed values flowing through the decision
engine: None, bool, numbers (ints and floats alike, as exact rationals),
strings, lists, and dicts (association lists; the Python code never
builds a dict with a duplicate key). -/

inductive Json where
  | null : Json
  | bool (b : Bool) : Json
  | num (q : ℚ) : Json
  | str (s : String) : Json
  | arrNil : Json
  | arrCons (head tail : Json) : Json
  | objNil : Json
  | objCons (key : String) (val rest : Json) : Json
deriving DecidableEq

/-- List literal for Python lists (arrNil and arrCons are the spine; the
nested form List Json cannot derive decidable equality, hence this flat
encoding behind smart constructors). -/
def Json.arr : List Json → Json
  | [] => Json.arrNil
  | x :: xs => Json.arrCons x (Json.arr xs)

/-- Dict literal for Python dicts, in insertion order. -/
def Json.obj : List (String × Json) → Json
  | [] => Json.objNil
  | (k, v) :: rest => Json.objCons k v (Json.obj rest)

/-- Elements of a list value (empty for non-lists). -/
def Json.elems : Json → List Json
  | .arrCons x rest => x :: rest.elems
  | _ => []

/-- Bindings of a dict value (empty for non-dicts). -/
def Json.fields : Json → List (String × Json)
  | .objCons k v rest => (k, v) :: rest.fields
  | _ => []

/-- First binding of a key in a dict, if any. -/
def Json.lookup : Json → String → Option Json
  | .objCons k' v rest, k => if k' = k then some v else rest.lookup k
  | _, _ => none

/-- Python dict.get(k) (None when absent); meaningful on dicts only. -/
def Json.get (j : Json) (k : String) : Json := (j.lookup k).getD Json.null

/-- Python key-presence test k in d for dicts. -/
def Json.hasKey (j : Json) (k : String) : Bool := (j.lookup k).isSome

def Json.isObj : Json → Bool
  | .objNil => true
  | .objCons _ _ _ => true
  | _ => false

def Json.isArr : Json → Bool
  | .arrNil => true
  | .arrCons _ _ => true
  | _ => false

def Json.isStr : Json → Bool
  | .str _ => true
  | _ => false

def Json.isNum : Json → Bool
  | .num _ => true
  | _ => false

/-- Python truthiness: None, False, 0, empty string/list/dict are falsy. -/
def Json.truthy : Json → Bool
  | .null => false
  | .bool b => b
  | .num q => decide (q.num ≠ 0)
  | .str s => !(s.data.isEmpty)
  | .arrNil => false
  | .arrCons _ _ => true
  | .objNil => false
  | .objCons _ _ _ => true

/-- Python a or b. -/
def pyOr (a b : Json) : Json := if a.truthy then a else b

/-- Dict assignment d[k] = v: replaces the first binding in place
(CPython keeps the original key position) or appends a new one. -/
def assocSet : List (String × Json) → String → Json → List (String × Json)
  | [], k, v => [(k, v)]
  | (k', v') :: rest, k, v =>
    if k' = k then (k', v) :: rest else (k', v') :: assocSet rest k v

/-- Parse the integer part of a decimal literal. -/
def digitsVal : List Char → Option Nat
  | [] => none
  | cs => go cs 0
where go : List Char → Nat → Option Nat
  | [], acc => some acc
  | c :: rest, acc => if c.isDigit then go rest (acc * 10 + (c.toNat - 48)) else none

/-- Model of Python float(string): optional sign, decimal digits with an
optional fractional part (surrounding spaces stripped).  Exponent forms,
inf and nan are not modelled; no claim feeds them to the engine. -/
def parseFloatStr (s : String) : Option ℚ :=
  let cs := (strStripSpaces s).data
  let (sign, cs) : Int × List Char :=
    match cs with
    | '-' :: rest => (-1, rest)
    | '+' :: rest => (1, rest)
    | _ => (1, cs)
  match cs.splitOn '.' with
  | [intPart] =>
    match digitsVal intPart with
    | some n => some (mkRat (sign * n) 1)
    | none => none
  | [intPart, fracPart] =>
    if intPart.isEmpty ∧ fracPart.isEmpty then none
    else
      let ip : Option Nat := if intPart.isEmpty then some 0 else digitsVal intPart
      let fp : Option Nat := if fracPart.isEmpty then some 0 else digitsVal fracPart
      match ip, fp with
      | some n, some f => some (mkRat (sign * (n * 10 ^ fracPart.length + f)) (10 ^ fracPart.length))
      | _, _ => none
  | _ => none

/-- Model of Python float(x): numbers pass through, booleans coerce,
numeric strings parse; anything else raises (None here). -/
def pyFloat : Json → Option ℚ
  | .num q => some q
  | .bool b => some (if b then 1 else 0)
  | .str s => parseFloatStr s
  | _ => none

/-- Model of Python int(x): numbers truncate toward zero, booleans
coerce, strings must be (signed) decimal integers. -/
def pyInt : Json → Option Int
  | .num q => some (q.num.tdiv q.den)
  | .bool b => some (if b then 1 else 0)
  | .str s =>
    let cs := (strStripSpaces s).data
    let (sign, cs) : Int × List Char :=
      match cs with
      | '-' :: rest => (-1, rest)
      | '+' :: rest => (1, rest)
      | _ => (1, cs)
    (digitsVal cs).map (fun n => sign * n)
  | _ => none

/-- Abstract rendering of a value inside an f-string.  No claim inspects
the prose of a note or reason, so the exact float formatting of CPython
is not reproduced. -/
def pyStr : Json → String
  | .null => "None"
  | .bool b => if b then "True" else "False"
  | .num q => if q.den = 1 then (if q.num < 0 then "-" ++ Nat.repr q.num.natAbs else Nat.repr q.num.natAbs) else Nat.repr q.num.natAbs ++ "/" ++ Nat.repr q.den
  | .str s => s
  | _ => "..."

def fmtQ (q : ℚ) : String := pyStr (Json.num q)

/-! ## Python exceptions -/

structure PyExc where
  name : String
  msg : String
deriving DecidableEq

abbrev PyM (α : Type) := Except PyExc α

instance {ε α : Type} [DecidableEq ε] [DecidableEq α] : DecidableEq (Except ε α) := fun a b =>
  match a, b with
  | .ok x, .ok y => if h : x = y then isTrue (by rw [h]) else isFalse (by simp [h])
  | .error x, .error y => if h : x = y then isTrue (by rw [h]) else isFalse (by simp [h])
  | .ok _, .error _ => isFalse (by simp)
  | .error _, .ok _ => isFalse (by simp)

def raiseTypeError {α : Type} (m : String) : PyM α := .error ⟨"TypeError", m⟩

def raiseAttrError {α : Type} (m : String) : PyM α := .error ⟨"AttributeError", m⟩

instance : BEq Json := ⟨fun a b => decide (a = b)⟩

instance : LawfulBEq Json where
  eq_of_beq h := of_decide_eq_true h
  rfl := by simp [BEq.beq]

/-- Python d.get(k) on an arbitrary value: raises AttributeError unless
d is a dict. -/
def Json.getE (j : Json) (k : String) : PyM Json :=
  if j.isObj then .ok (j.get k)
  else raiseAttrError "object has no attribute get"

/-- Python k in x for a string key: dict key test, list membership,
substring test on strings; raises TypeError otherwise. -/
def Json.memE (j : Json) (k : String) : PyM Bool :=
  if j.isObj then .ok (j.hasKey k)
  else if j.isArr then .ok (j.elems.contains (Json.str k))
  else if j.isStr then .ok (match j with | .str s => strIn k s | _ => false)
  else raiseTypeError "argument is not iterable"

/-- Python iteration: lists yield elements, dicts yield their keys;
raises TypeError otherwise (strings are never iterated by this code). -/
def pyIterE (j : Json) : PyM (List Json) :=
  if j.isArr then .ok j.elems
  else if j.isObj then .ok (j.fields.map (fun kv => Json.str kv.1))
  else raiseTypeError "object is not iterable"

/-! ## models.py: strict pydantic tool-output models

Each model is embedded as a validator producing the normalised dump
(declared fields in order, coerced values, defaults filled in, extra
input keys kept only under extra = allow).  Pydantic v2 lax coercions
are modelled: numeric strings coerce to float/int, float fields accept
ints, int fields require an integral value; bool is not accepted for
numeric fields, and non-str values are not accepted for str fields. -/

abbrev FieldV := Option Json → Except String Json

/-- Optional[str] = None. -/
def fOptStr : FieldV
  | none => .ok .null
  | some .null => .ok .null
  | some v => if v.isStr then .ok v else .error "str expected"

/-- str (required). -/
def fReqStr : FieldV
  | none => .error "field required"
  | some (.str s) => .ok (.str s)
  | some _ => .error "str expected"

/-- Optional[float] = None. -/
def fOptFloat : FieldV
  | none => .ok .null
  | some .null => .ok .null
  | some (.num q) => .ok (.num q)
  | some (.str s) =>
    match parseFloatStr s with
    | some q => .ok (.num q)
    | none => .error "float expected"
  | some _ => .error "float expected"

/-- Optional[int] = None. -/
def fOptInt : FieldV
  | none => .ok .null
  | some .null => .ok .null
  | some (.num q) => if q.den = 1 then .ok (.num q) else .error "int expected"
  | some (.str s) =>
    match pyInt (.str s) with
    | some n => .ok (.num (n : ℚ))
    | none => .error "int expected"
  | some _ => .error "int expected"

/-- Optional[Any] = None. -/
def fAny : FieldV
  | none => .ok .null
  | some v => .ok v

/-- Optional[List[Any]] = Field(default_factory=list). -/
def fOptListAnyD : FieldV
  | none => .ok (Json.arr [])
  | some .null => .ok .null
  | some v => if v.isArr then .ok v else .error "list expected"

/-- Optional[Dict[str, Any]] = Field(default_factory=dict). -/
def fOptDictD : FieldV
  | none => .ok (Json.obj [])
  | some .null => .ok .null
  | some v => if v.isObj then .ok v else .error "dict expected"

/-- Optional[List[str]] = Field(default_factory=list). -/
def fOptListStrD : FieldV
  | none => .ok (Json.arr [])
  | some .null => .ok .null
  | some v =>
    if v.isArr then
      if v.elems.all Json.isStr then .ok v else .error "list of str expected"
    else .error "list expected"

/-- Optional[SubModel] = None. -/
def fOptModel (p : Json → Except String Json) : FieldV
  | none => .ok .null
  | some .null => .ok .null
  | some v => p v

/-- Optional[List[SubModel]] = Field(default_factory=list). -/
def fOptListOfD (p : Json → Except String Json) : FieldV
  | none => .ok (Json.arr [])
  | some .null => .ok .null
  | some v =>
    if v.isArr then (v.elems.mapM p).map Json.arr
    else .error "list expected"

/-- Run a model: validate declared fields in order against a dict and
return the normalised dump; keep extra input keys when allowed. -/
def runModel (fields : List (String × FieldV)) (extraAllow : Bool) (src : Json) : Except String Json :=
  if !src.isObj then .error "input is not a dict"
  else do
    let vals ← fields.mapM (fun kf => (kf.2 (src.lookup kf.1)).map (fun v => (kf.1, v)))
    let declared := fields.map (·.1)
    let extras := if extraAllow then src.fields.filter (fun kv => !(declared.contains kv.1)) else []
    .ok (Json.obj (vals ++ extras))

def parsePlantingWindow (j : Json) : Except String Json :=
  runModel [("start", fOptStr), ("end", fOptStr)] false j

def parseContingencyItem (j : Json) : Except String Json :=
  runModel [("alt_crops", fAny), ("hazard", fOptStr), ("inputs_support_notes", fOptStr),
    ("measures", fOptListAnyD), ("stage_window", fAny)] false j

def parseIrrigationIdeal (j : Json) : Except String Json :=
  runModel [("critical_stages", fOptListAnyD), ("notes", fOptStr),
    ("seasonal_requirement_mm", fOptFloat)] false j

def parseSoilIdeal (j : Json) : Except String Json :=
  runModel [("ph_range", fAny), ("text", fOptStr)] false j

def parseMarketMapping (j : Json) : Except String Json :=
  runModel [("commodity_names", fOptListStrD)] false j

def parseCropEntry (j : Json) : Except String Json :=
  runModel [("crop_name", fOptStr), ("season", fOptStr),
    ("planting_window", fOptModel parsePlantingWindow), ("stages", fOptListAnyD),
    ("stage_lengths_days", fAny), ("irrigation_ideal", fOptModel parseIrrigationIdeal),
    ("soil_ideal", fOptModel parseSoilIdeal), ("weather_ideal", fOptDictD),
    ("contingencies", fOptListOfD parseContingencyItem),
    ("market_mapping", fOptModel parseMarketMapping), ("data_gaps", fOptListStrD),
    ("sources", fOptListStrD)] true j

def parseDatasetSourceItem (j : Json) : Except String Json :=
  runModel [("key", fOptStr), ("title", fOptStr), ("url", fOptStr), ("tier", fOptStr),
    ("last_checked", fOptStr)] false j

/-- CropCalendarOutput (the Python class declares source_type twice; the
class body keeps a single field). -/
def parseCropCalendarOutput (j : Json) : Except String Json :=
  runModel [("state", fOptStr), ("district", fOptStr), ("agro_climatic_zone", fOptStr),
    ("source_type", fOptStr), ("source_url", fOptStr), ("doc_date", fOptStr),
    ("last_checked", fOptStr), ("normal_annual_rain_mm", fOptFloat),
    ("rainfall_pattern_notes", fOptStr), ("dominant_soils", fOptListStrD),
    ("crops", fOptListOfD parseCropEntry),
    ("dataset_sources", fOptListOfD parseDatasetSourceItem),
    ("source_id", fOptStr)] false j

def parseWeatherOutput (j : Json) : Except String Json :=
  runModel [("lat", fOptFloat), ("lon", fOptFloat), ("elevation", fOptFloat),
    ("tz", fOptStr), ("run_at", fOptStr), ("time", fOptListAnyD), ("tmin_c", fOptListAnyD),
    ("tmax_c", fOptListAnyD), ("rain_mm", fOptListAnyD), ("et0_mm", fOptListAnyD),
    ("wind_speed_10m_ms", fOptFloat), ("rh_mean_pct", fOptFloat),
    ("shortwave_radiation_mj_m2", fOptFloat), ("time_hourly", fOptListAnyD),
    ("temp_2m_c", fOptListAnyD), ("precip_mm", fOptListAnyD),
    ("et0_hourly_mm", fOptListAnyD), ("wind_speed_hourly_10m_ms", fOptListAnyD),
    ("rh_2m_pct", fOptListAnyD), ("source_id", fOptStr), ("source_type", fOptStr)] false j

def parseOCDistributionPct (j : Json) : Except String Json :=
  runModel [("low", fOptFloat), ("medium", fOptFloat), ("high", fOptFloat)] false j

def parseSoilSampleOutput (j : Json) : Except String Json :=
  runModel [("state", fOptStr), ("district", fOptStr), ("block", fOptStr),
    ("village", fOptStr), ("lat", fOptFloat), ("lon", fOptFloat), ("sample_id", fOptStr),
    ("collection_date", fOptStr), ("ph", fOptFloat), ("ec_ds_m", fOptFloat),
    ("oc_percent", fOptFloat), ("available_n_kg_ha", fOptFloat),
    ("available_p_kg_ha", fOptFloat), ("available_k_kg_ha", fOptFloat),
    ("sulphur_ppm", fOptFloat), ("zinc_ppm", fOptFloat), ("iron_ppm", fOptFloat),
    ("copper_ppm", fOptFloat), ("manganese_ppm", fOptFloat), ("bo_ppm", fOptFloat),
    ("b_ppm", fOptFloat), ("n_class", fOptStr), ("p_class", fOptStr), ("k_class", fOptStr),
    ("oc_class", fOptStr), ("lab_name", fOptStr), ("recommendation_notes", fOptStr),
    ("oc_distribution_pct", fOptModel parseOCDistributionPct),
    ("n_class_pct", fOptModel parseOCDistributionPct),
    ("p_class_pct", fOptModel parseOCDistributionPct),
    ("k_class_pct", fOptModel parseOCDistributionPct), ("ph_summary", fOptStr),
    ("last_checked", fOptStr), ("source_id", fOptStr), ("source_type", fOptStr)] true j

def parsePesticideOutput (j : Json) : Except String Json :=
  runModel [("crop_name", fOptStr), ("target", fOptStr), ("active_ingredient", fOptStr),
    ("formulation", fOptStr), ("dose_ai_g_ha", fOptFloat),
    ("dose_formulation_qty_per_ha", fOptFloat), ("spray_volume_l_ha", fOptFloat),
    ("application_method", fOptStr), ("phi_days", fOptInt), ("ppe_notes", fOptStr),
    ("who_class", fOptStr), ("label_source_url", fOptStr), ("as_on_date", fOptStr),
    ("last_checked", fOptStr), ("status", fOptStr), ("notes", fOptStr),
    ("sources", fOptListStrD), ("source_id", fOptStr), ("source_type", fOptStr)] false j

def parseMandiPriceOutput (j : Json) : Except String Json :=
  runModel [("state", fOptStr), ("district", fOptStr), ("market", fOptStr),
    ("arrival_date", fOptStr), ("commodity", fOptStr), ("variety", fOptStr),
    ("min_price_rs_per_qtl", fOptFloat), ("max_price_rs_per_qtl", fOptFloat),
    ("modal_price_rs_per_qtl", fOptFloat), ("arrival_qty", fOptFloat),
    ("source_url", fOptStr), ("source_id", fOptStr), ("source_type", fOptStr),
    ("last_checked", fOptStr)] false j

def parseDatasetSourceOutput (j : Json) : Except String Json :=
  runModel [("key", fOptStr), ("title", fOptStr), ("url", fOptStr), ("tier", fOptStr),
    ("last_checked", fOptStr), ("source_id", fOptStr), ("source_type", fOptStr)] false j

def parseRagResultItem (j : Json) : Except String Json :=
  runModel [("doc_id", fReqStr), ("text", fOptStr), ("relevance", fOptFloat),
    ("meta", fun o => match o with
      | none => .ok .null
      | some .null => .ok .null
      | some v => if v.isObj then .ok v else .error "dict expected"),
    ("source_id", fOptStr), ("source_type", fOptStr)] false j

def parseRagSearchOutput (j : Json) : Except String Json :=
  runModel [("results", fOptListOfD parseRagResultItem), ("source", fOptStr),
    ("source_id", fOptStr), ("source_type", fOptStr)] false j

/-- The ToolNameLiteral enum together with the per-tool strict model used
by ToolCall.validate_and_parse_output (the mapping covers every literal). -/
def toolModelMapping (tool : String) : Option (Json → Except String Json) :=
  if tool = "weather_outlook" then some parseWeatherOutput
  else if tool = "prices_fetch" then some parseMandiPriceOutput
  else if tool = "calendar_lookup" then some parseCropCalendarOutput
  else if tool = "variety_lookup" then some parseRagSearchOutput
  else if tool = "policy_match" then some parseDatasetSourceOutput
  else if tool = "pesticide_lookup" then some parsePesticideOutput
  else if tool = "storage_find" then some parseDatasetSourceOutput
  else if tool = "rag_search" then some parseRagSearchOutput
  else if tool = "crop_calendar" then some parseCropCalendarOutput
  else if tool = "soil_profile" then some parseSoilSampleOutput
  else if tool = "mandi_prices" then some parseMandiPriceOutput
  else none

def toolNameLiterals : List String :=
  ["weather_outlook", "prices_fetch", "calendar_lookup", "variety_lookup", "policy_match",
   "pesticide_lookup", "storage_find", "rag_search", "crop_calendar", "soil_profile",
   "mandi_prices"]

/-- ToolCall: the pre root_validator first parses output with the mapped
strict model (out = values.get("output", {}) or {}), raising on schema
failure; then the fields are validated (tool must be a known literal,
args an optional dict).  Returns the tool name and the normalised
output dump. -/
def parseToolCall (tc : Json) : Except String (String × Json) :=
  if !tc.isObj then .error "tool call must be a dict"
  else do
    let tool := tc.get "tool"
    let rawOut := (tc.lookup "output").getD (Json.obj [])
    let out := pyOr rawOut (Json.obj [])
    let parsedOut ←
      match tool with
      | .str s =>
        match toolModelMapping s with
        | some p =>
          match p out with
          | .ok v => .ok v
          | .error e => .error ("Tool output failed schema validation: " ++ e)
        | none => .ok out
      | _ => .ok out
    let toolName ←
      match tool with
      | .str s => if toolNameLiterals.contains s then .ok s else .error "unknown tool"
      | _ => .error "tool must be a string"
    let _ ← fOptDictD (tc.lookup "args")
    .ok (toolName, parsedOut)

/-- The validated ActIntentModel (extra = allow: raw keeps the whole
payload so that getattr on undeclared keys can be modelled). -/
structure ActIntent where
  intent : String
  decision_template : String
  tool_calls : List (String × Json)
  missing : Json
  facts : Json
  request_id : Json
  raw : Json
deriving DecidableEq

/-- ActIntentModel.model_validate. -/
def parseActIntent (payload : Json) : Except String ActIntent :=
  if !payload.isObj then .error "input is not a dict"
  else do
    let intent ←
      match payload.lookup "intent" with
      | some (.str s) => .ok s
      | some _ => .error "intent must be str"
      | none => .error "intent required"
    let dt ←
      match payload.lookup "decision_template" with
      | some (.str s) => .ok s
      | some _ => .error "decision_template must be str"
      | none => .error "decision_template required"
    let tcs ←
      match payload.lookup "tool_calls" with
      | some v =>
        if v.isArr then v.elems.mapM parseToolCall
        else .error "tool_calls must be a list"
      | none => .error "tool_calls required"
    let missing ← fOptListStrD (payload.lookup "missing")
    let facts ← fOptDictD (payload.lookup "facts")
    let rid ← fOptStr (payload.lookup "request_id")
    .ok ⟨intent, dt, tcs, missing, facts, rid, payload⟩

/-- getattr(act, k, None) for keys that are not declared model fields
(pydantic extra = allow exposes extra payload keys as attributes). -/
def actAttr (act : ActIntent) (k : String) : Json := act.raw.get k

/-! ## utils/helpers.py -/

def SOURCE_TYPE_WEIGHTS : List (String × ℚ) :=
  [("government", 1), ("research_institute", mkRat 95 100),
   ("state_agri_university", mkRat 92 100), ("market_portal", mkRat 90 100),
   ("seed_catalog", mkRat 80 100), ("dataset_portal", mkRat 78 100),
   ("vendor", mkRat 60 100), ("news_blog", mkRat 35 100), ("unknown", mkRat 50 100)]

def weightsLookup (s : String) : Option ℚ :=
  (SOURCE_TYPE_WEIGHTS.find? (fun kv => kv.1 == s)).map (·.2)

/-- SOURCE_TYPE_WEIGHTS.get(stype, SOURCE_TYPE_WEIGHTS.get("unknown", 0.5));
a non-string source_type misses the dict and takes the default. -/
def sourceTypeWeightOf (stype : Json) : ℚ :=
  match stype with
  | .str s => (weightsLookup s).getD ((weightsLookup "unknown").getD (mkRat 1 2))
  | _ => (weightsLookup "unknown").getD (mkRat 1 2)

/-- build_facts_from_toolcalls.  At its only call site (the
orchestrator) every entry is a dict with a validated tool literal and an
already-parsed model output, so the ToolCall re-parse always succeeds
and model_dump returns the output unchanged: the function reduces to
ordered dict assignment facts[tool_name] = out_dict, later entries
overwriting earlier ones under the same tool name (the first occurrence
keeps its position, as in CPython dicts). -/
def build_facts_from_toolcalls (tool_calls : List (String × Json)) : Json :=
  Json.obj (tool_calls.foldl (fun facts kv => assocSet facts kv.1 kv.2) [])

/-- A provenance entry dict. -/
def provEntry (sid stype tool : Json) : Json :=
  Json.obj [("source_id", sid), ("source_type", stype), ("tool", tool)]

/-- Dedup key used by add_prov inside extract_provenance_from_facts:
the f-string key tool||source_id||source_type, modelled as a triple. -/
abbrev ProvKey := String × Json × Json

/-- add_prov body of extract_provenance_from_facts: append unless the
(tool, source_id, source_type) key was already seen. -/
def addProv (acc : List ProvKey × List Json) (sid stype : Json) (tool : String) :
    List ProvKey × List Json :=
  let key : ProvKey := (tool, sid, stype)
  if acc.1.contains key then acc
  else (key :: acc.1, acc.2 ++ [provEntry sid stype (Json.str tool)])

/-- Nested provenance scan of one tool output over the known list-valued
sub-keys (results, varieties, matched, items, series). -/
def extractNested (acc : List ProvKey × List Json) (tool : String) (out : Json) :
    List ProvKey × List Json :=
  ["results", "varieties", "matched", "items", "series"].foldl (fun acc lk =>
    if out.hasKey lk ∧ (out.get lk).isArr then
      (out.get lk).elems.foldl (fun acc item =>
        if item.isObj then
          let sid_i := pyOr (pyOr (item.get "source_id") (item.get "source")) Json.null
          let stype_i := pyOr (pyOr (item.get "source_type") (item.get "source_type")) Json.null
          addProv acc sid_i stype_i (tool ++ "." ++ lk)
        else acc) acc
    else acc) acc

/-- extract_provenance_from_facts: walk the facts dict in order, read
source_id/source (and source_type/providere, a typo kept from the
source) at the top level of each dict-shaped output, then scan the known
nested list keys; first-seen order, deduplicated by the
(tool, source_id, source_type) key. -/
def extract_provenance_from_facts (facts : Json) : List Json :=
  if !facts.truthy then []
  else
    (facts.fields.foldl (fun acc kv =>
      let (tool, out) := kv
      if !out.isObj then acc
      else
        let sid := pyOr (out.get "source_id") (out.get "source")
        let stype := pyOr (out.get "source_type") (out.get "providere")
        extractNested (addProv acc sid stype tool) tool out) ([], [])).2

/-- The per-tool confidence/conf/score values collected by the final
fallback of compute_confidence (the branch that examines facts when no
canonical signal is present). -/
def toolConfVals (facts : Json) : List ℚ :=
  facts.fields.filterMap (fun kv =>
    let tout := kv.2
    if !tout.isObj then none
    else
      let c := pyOr (pyOr (tout.get "confidence") (tout.get "conf")) (tout.get "score")
      if c = Json.null then none else pyFloat c)

/-- Normalisation of the signals argument (dict(signals or ...) with a
non-dict falling back to empty). -/
def ccSignalsNorm (signals : Json) : Json := if signals.isObj then signals else Json.obj []

/-- The (value, weight) parts list of compute_confidence. -/
def ccPartsWeights (signals : Json) : List (ℚ × ℚ) :=
  (match pyFloat (signals.get "handler_confidence") with
   | some hc => [(hc, mkRat 45 100)] | none => []) ++
  (match pyFloat (signals.get "items_mean_score") with
   | some im => [(im, mkRat 35 100)] | none => []) ++
  (match pyFloat (signals.get "facts_mean_confidence") with
   | some fm => [(fm, mkRat 20 100)] | none => [])

/-- The missing-tools penalty base of compute_confidence. -/
def ccMissingBase (signals : Json) (miss_frac : ℚ) : ℚ :=
  match pyFloat (signals.get "items_mean_score") with
  | some im => qMul im (qSub 1 miss_frac)
  | none =>
    match pyFloat (signals.get "handler_confidence") with
    | some hc => qMul hc (qSub 1 miss_frac)
    | none => qMax 0 (qMul (mkRat 1 2) (qSub 1 miss_frac))

/-- The weighted-average branch of compute_confidence, evidence boost
included, clamped. -/
def ccWeighted (signals : Json) (n_facts : ℚ) : ℚ :=
  let parts_weights := ccPartsWeights signals
  let total_w := qSum (parts_weights.map (·.2))
  let conf :=
    if qLtB 0 total_w then qDiv (qSum (parts_weights.map (fun pw => qMul pw.1 pw.2))) total_w
    else qMean (parts_weights.map (·.1))
  let items_list := (signals.lookup "items").getD (Json.arr [])
  let n_items : Json := (signals.lookup "n_items").getD
    (Json.num (if items_list.isArr then (items_list.elems.length : ℚ) else 0))
  let conf :=
    match pyFloat n_items with
    | some ni =>
      qMul conf (qAdd 1 (qAdd (qMin (mkRat 1 10) (qDiv n_facts 10)) (qMin (mkRat 5 100) (qDiv ni 20))))
    | none => conf
  qClamp01 conf

/-- compute_confidence(signals, facts, required_tools).  The boost and
clamp follow the source; the fallback mean over per-tool confidences is
returned without clamping, exactly as in the source. -/
def compute_confidence (signals facts : Json) (required_tools : List String) : ℚ :=
  let signals := ccSignalsNorm signals
  let facts := pyOr facts (Json.obj [])
  let n_facts : ℚ := (facts.fields.length : ℚ)
  let missing_tools := required_tools.filter (fun t => !(facts.hasKey t))
  if !missing_tools.isEmpty then
    let miss_frac := qDiv (missing_tools.length : ℚ) (qMax 1 (required_tools.length : ℚ))
    qClamp01 (ccMissingBase signals miss_frac)
  else
    if (ccPartsWeights signals).isEmpty then
      let tool_confs := toolConfVals facts
      if !tool_confs.isEmpty then qMean tool_confs
      else mkRat 1 2
    else ccWeighted signals n_facts

/-! ## utils/provenance.py -/

/-- Normalisation step of prioritize_provenance: non-dict entries are
wrapped as source_id strings. -/
def provNormalize (p : Json) : Json :=
  if p.isObj then p
  else Json.obj [("source_id", Json.str (pyStr p)), ("source_type", Json.null), ("tool", Json.str "unknown")]

/-- Weight of a scored entry: (p.get("source_type") or "unknown") looked
up in SOURCE_TYPE_WEIGHTS. -/
def provWeight (p : Json) : ℚ :=
  sourceTypeWeightOf (pyOr (p.get "source_type") (Json.str "unknown"))

/-- Sort key order of prioritize_provenance on (index, entry, weight)
triples: weight descending, ties by original index (Python key
(-weight, idx); the keys are distinct, so stable sorting by this
relation reproduces Python sorted exactly). -/
def provLeB (a b : Nat × Json × ℚ) : Bool :=
  qLtB b.2.2 a.2.2 || (a.2.2 == b.2.2 && decide (a.1 ≤ b.1))

def provLe (a b : Nat × Json × ℚ) : Prop := provLeB a b = true

instance : DecidableRel provLe := fun a b => by
  unfold provLe; infer_instance

instance : IsTotal (Nat × Json × ℚ) provLe := ⟨by
  have hlt : ∀ x y : ℚ, qLtB x y = true ↔ x < y := fun x y => by
    unfold qLtB; rw [decide_eq_true_iff]; exact (Rat.lt_def).symm
  intro a b
  unfold provLe provLeB
  rcases lt_trichotomy a.2.2 b.2.2 with h | h | h
  · right
    simp [hlt, h]
  · rcases Nat.le_total a.1 b.1 with hn | hn
    · left; simp [h, hn, beq_iff_eq]
    · right; simp [h, hn, beq_iff_eq]
  · left
    simp [hlt, h]⟩

instance : IsTrans (Nat × Json × ℚ) provLe := ⟨by
  have hlt : ∀ x y : ℚ, qLtB x y = true ↔ x < y := fun x y => by
    unfold qLtB; rw [decide_eq_true_iff]; exact (Rat.lt_def).symm
  intro a b c hab hbc
  unfold provLe provLeB at *
  simp only [Bool.or_eq_true, Bool.and_eq_true, beq_iff_eq, decide_eq_true_eq, hlt] at *
  rcases hab with h1 | ⟨h1, h1n⟩ <;> rcases hbc with h2 | ⟨h2, h2n⟩
  · exact Or.inl (lt_trans h2 h1)
  · exact Or.inl (h2 ▸ h1)
  · exact Or.inl (h1 ▸ h2)
  · exact Or.inr ⟨h1.trans h2, le_trans h1n h2n⟩⟩

/-- prioritize_provenance: normalise entries, enumerate, sort by
(-weight, index) (a stable sort with distinct keys: insertionSort with
provLe yields exactly Python sorted), then dedup by the
(source_id, source_type) pair. -/
def prioritize_provenance (prov_entries : List Json) : List Json :=
  if prov_entries.isEmpty then []
  else
    let normalized := prov_entries.map provNormalize
    let scored := (normalized.enum.map (fun pi => (pi.1, pi.2, provWeight pi.2)))
    let scored_sorted := List.insertionSort provLe scored
    (scored_sorted.foldl (fun (acc : List (Json × Json) × List Json) t =>
      let entry := t.2.1
      let sid := entry.get "source_id"
      let st := entry.get "source_type"
      if acc.1.contains (sid, st) then acc
      else ((sid, st) :: acc.1, acc.2 ++ [entry])) ([], [])).2

/-- Handler-reported provenance normalisation inside merge_provenance:
dict entries keep source_id/source_type and default tool to handler,
other entries are wrapped as handler strings.  Iterating a non-iterable
handler_prov raises, as in Python. -/
def mergeHandlerProv (handler_prov : Json) : PyM (List Json) :=
  if !handler_prov.truthy then .ok []
  else do
    let hps ← pyIterE handler_prov
    .ok (hps.map (fun hp =>
      if hp.isObj then
        provEntry (hp.get "source_id") (hp.get "source_type") ((hp.lookup "tool").getD (Json.str "handler"))
      else
        provEntry (Json.str (pyStr hp)) Json.null (Json.str "handler")))

/-- source_id to source_type lookup built from the extracted entries
(first binding wins, setdefault). -/
def buildSidLookup (extracted : List Json) : List (Json × Json) :=
  extracted.foldl (fun acc e =>
    let sid := e.get "source_id"
    let st := e.get "source_type"
    if sid.truthy ∧ st.truthy then
      if (acc.find? (fun kv => kv.1 == sid)).isSome then acc else acc ++ [(sid, st)]
    else acc) []

/-- Backfill of missing source_type from the lookup, defaulting to
unknown. -/
def backfillEntry (lookup : List (Json × Json)) (entry : Json) : Json :=
  if (entry.get "source_type").truthy then entry
  else
    let sid := entry.get "source_id"
    match (if sid.truthy then lookup.find? (fun kv => kv.1 == sid) else none) with
    | some kv => provEntry sid kv.2 (entry.get "tool")
    | none => provEntry sid (Json.str "unknown") (entry.get "tool")

/-- Final per-entry cleanup of merge_provenance (ordered loop). -/
def orderedEntry (p : Json) : Json :=
  let sid := p.get "source_id"
  let s_type := p.get "source_type"
  let tool := (p.lookup "tool").getD (Json.str "unknown")
  if sid.truthy then provEntry sid s_type tool
  else provEntry Json.null (pyOr s_type (Json.str "unknown")) tool

/-- merge_provenance(handler_prov, facts). -/
def merge_provenance (handler_prov facts : Json) : PyM (List Json) := do
  let handlerEntries ← mergeHandlerProv handler_prov
  let extracted := extract_provenance_from_facts (pyOr facts (Json.obj []))
  let combined := handlerEntries ++ extracted
  if combined.isEmpty then .ok []
  else
    let lookup := buildSidLookup extracted
    let combined := combined.map (backfillEntry lookup)
    let prioritized := prioritize_provenance combined
    let ordered := prioritized.map orderedEntry
    .ok ((ordered.foldl (fun (acc : List (Json × Json × Json) × List Json) entry =>
      let key := (pyOr (entry.get "source_id") (Json.str ""),
                  pyOr (entry.get "source_type") (Json.str ""),
                  pyOr (entry.get "tool") (Json.str ""))
      if acc.1.contains key then acc
      else (key :: acc.1, acc.2 ++ [entry])) ([], [])).2)

/-! ## rules/temperature_risk.py -/

namespace TemperatureRisk

def DEFAULT_LOOKAHEAD_DAYS : Int := 7

def DEFAULT_FROST_THRESHOLD_C : ℚ := 2

def DEFAULT_HEAT_THRESHOLD_C : ℚ := 38

/-- safe_get(d, *keys): first key present with a non-None value,
else the default (None); returns the default on non-dict input. -/
def safe_get (d : Json) (keys : List String) (default : Json := Json.null) : Json :=
  if !d.isObj then default
  else
    match keys.find? (fun k => d.hasKey k && !((d.get k) == Json.null)) with
    | some k => d.get k
    | none => default

/-- The local _to_float of _normalize_forecast_days: float(v), falling
back to the first whitespace token of str(v). -/
def to_float (v : Json) : Option ℚ :=
  if v = Json.null then none
  else
    match pyFloat v with
    | some q => some q
    | none =>
      let tok : List Char := (((pyStr v).data.dropWhile (· == ' ')).takeWhile (· ≠ ' '))
      parseFloatStr ⟨tok⟩

/-- _find_any: exact keys in order, then a case-insensitive fallback
over a lowercased copy of the dict (later duplicate lowercased keys
overwrite earlier ones, as in the dict comprehension). -/
def find_any (d : Json) (keys : List String) : Json :=
  match keys.find? (fun k => d.hasKey k && !((d.get k) == Json.null)) with
  | some k => d.get k
  | none =>
    let low := Json.obj (d.fields.foldl (fun acc kv => assocSet acc (pyLower kv.1) kv.2) [])
    match keys.find? (fun k => low.hasKey (pyLower k) && !((low.get (pyLower k)) == Json.null)) with
    | some k => low.get (pyLower k)
    | none => Json.null

/-- One normalised forecast day from a day dict of the forecast list. -/
def normalizeDayDict (entry : Json) : Json :=
  let date_raw := find_any entry ["date", "datetime", "time", "dt"]
  let tmin_raw := find_any entry ["t_min", "tmin", "tmin_c", "temp_min", "min_temp", "night_temp"]
  let tmax_raw := find_any entry ["t_max", "tmax", "tmax_c", "temp_max", "max_temp", "day_temp"]
  let (tmin_raw, tmax_raw) :=
    if (tmin_raw = Json.null ∨ tmax_raw = Json.null) ∧ entry.hasKey "temperature" ∧ (entry.get "temperature").isObj then
      let temp := entry.get "temperature"
      (pyOr tmin_raw (find_any temp ["min", "t_min", "tmin"]),
       pyOr tmax_raw (find_any temp ["max", "t_max", "tmax"]))
    else (tmin_raw, tmax_raw)
  let tmin_f := match to_float tmin_raw with | some q => Json.num q | none => Json.null
  let tmax_f := match to_float tmax_raw with | some q => Json.num q | none => Json.null
  Json.obj [("date", date_raw), ("t_min", tmin_f), ("t_max", tmax_f), ("raw", entry)]

/-- _arr_get of the timeseries branch: each name is tried exactly, and
inside each iteration a lowercased copy of the dict is scanned over all
names. -/
def arrGet (weather_out : Json) (names : List String) : Json :=
  let lowmap := Json.obj (weather_out.fields.foldl (fun acc kv => assocSet acc (pyLower kv.1) kv.2) [])
  let lowScan : Option Json :=
    (names.find? (fun nn => lowmap.hasKey (pyLower nn) && (lowmap.get (pyLower nn)).isArr)).map
      (fun nn => lowmap.get (pyLower nn))
  match names.find? (fun n => weather_out.hasKey n && (weather_out.get n).isArr) with
  | some n =>
    -- the exact hit wins only if no earlier iteration already returned
    -- from the lowercase scan; the scan is identical in every iteration,
    -- so it wins unless it misses entirely or the first name matches
    -- exactly before any scan runs
    match names with
    | [] => Json.null
    | n1 :: _ =>
      if n1 = n then weather_out.get n
      else match lowScan with
        | some v => v
        | none => weather_out.get n
  | none =>
    match lowScan with
    | some v => v
    | none => Json.null

/-- _normalize_forecast_days: accept a list of day dicts under
forecast/daily/data, else the parallel-array timeseries shape; keep only
entries with at least one numeric temperature. -/
def normalize_forecast_days (weather_out : Json) : List Json :=
  if !weather_out.truthy ∨ !weather_out.isObj then []
  else
    let raw_fc : Option Json :=
      (["forecast", "daily", "data"].find? (fun c => weather_out.hasKey c && (weather_out.get c).isArr)).map
        (fun c => weather_out.get c)
    let normalized : List Json :=
      match raw_fc with
      | some fc => (fc.elems.filter Json.isObj).map normalizeDayDict
      | none => []
    let normalized :=
      if normalized.isEmpty then
        let time_arr : Option Json :=
          (["time", "times", "date", "time_hourly"].find? (fun t => weather_out.hasKey t && (weather_out.get t).isArr)).map
            (fun t => weather_out.get t)
        match time_arr with
        | some ta =>
          if ta.elems.isEmpty then []
          else
            let tmin_arr := arrGet weather_out ["tmin", "tmin_c", "t_min", "temp_min", "min_temp", "tmin_celsius"]
            let tmax_arr := arrGet weather_out ["tmax", "tmax_c", "t_max", "temp_max", "max_temp", "tmax_celsius"]
            let temp2m_arr := arrGet weather_out ["temp_2m_c", "temp_2m", "temperature"]
            if tmin_arr.truthy ∧ tmin_arr.isArr then
              let len := min ta.elems.length tmin_arr.elems.length
              (List.range len).map (fun i =>
                let date_raw := (ta.elems.getD i Json.null)
                let tmin_f := match to_float (tmin_arr.elems.getD i Json.null) with
                  | some q => Json.num q | none => Json.null
                let tmax_f :=
                  if tmax_arr.truthy ∧ i < tmax_arr.elems.length then
                    match to_float (tmax_arr.elems.getD i Json.null) with
                    | some q => Json.num q | none => Json.null
                  else Json.null
                Json.obj [("date", date_raw), ("t_min", tmin_f), ("t_max", tmax_f),
                  ("raw", Json.obj [("index", Json.num (i : ℚ))])])
            else if temp2m_arr.truthy ∧ temp2m_arr.isArr then
              let len := min ta.elems.length temp2m_arr.elems.length
              (List.range len).map (fun i =>
                let date_raw := (ta.elems.getD i Json.null)
                let temp_f := match to_float (temp2m_arr.elems.getD i Json.null) with
                  | some q => Json.num q | none => Json.null
                Json.obj [("date", date_raw), ("t_min", temp_f), ("t_max", temp_f),
                  ("raw", Json.obj [("index", Json.num (i : ℚ))])])
            else []
        | none => []
      else normalized
    normalized.filter (fun d => !((d.get "t_min") == Json.null) || !((d.get "t_max") == Json.null))

/-- _get_stage_thresholds: stage-keyed mapping under
critical_temps/stage_thresholds/stage_critical_temps, else top-level
thresholds, else the frost 2.0 / heat 38.0 defaults.  A non-dict
calendar raises inside the try and falls back to the defaults. -/
def get_stage_thresholds (calendar : Json) (stage : Json) : ℚ × ℚ :=
  let (frost, heat) : Json × Json :=
    if !calendar.isObj then (Json.null, Json.null)
    else
      let candidates := pyOr (pyOr (pyOr (calendar.get "critical_temps") (calendar.get "stage_thresholds"))
        (calendar.get "stage_critical_temps")) (Json.obj [])
      let (frost, heat) :=
        if candidates.isObj ∧ stage.truthy then
          match candidates.fields.find? (fun kv => pyLower kv.1 == pyLower (pyStr stage)) with
          | some kv =>
            if kv.2.isObj then
              (pyOr (safe_get kv.2 ["frost_threshold", "frost_temp"]) Json.null,
               pyOr (safe_get kv.2 ["heat_threshold", "heat_temp"]) Json.null)
            else (Json.null, Json.null)
          | none => (Json.null, Json.null)
        else (Json.null, Json.null)
      let frost := if frost = Json.null then safe_get calendar ["frost_threshold", "frost_temp"] else frost
      let heat := if heat = Json.null then safe_get calendar ["heat_threshold", "heat_temp"] else heat
      (frost, heat)
  let frost_v := match frost with
    | Json.null => DEFAULT_FROST_THRESHOLD_C
    | v => match pyFloat v with | some q => q | none => DEFAULT_FROST_THRESHOLD_C
  let heat_v := match heat with
    | Json.null => DEFAULT_HEAT_THRESHOLD_C
    | v => match pyFloat v with | some q => q | none => DEFAULT_HEAT_THRESHOLD_C
  (frost_v, heat_v)

/-- severity_from_difference: the three-tier progressive severity scale
on the breach magnitude (the reference argument is unused in the
source). -/
def severity_from_difference (diff : ℚ) : ℚ :=
  if qLeB diff 0 then 0
  else if qLeB diff 1 then qAdd (mkRat 1 10) (qMul diff (mkRat 2 10))
  else if qLeB diff 3 then qAdd (mkRat 3 10) (qMul (qDiv (qSub diff 1) 2) (mkRat 4 10))
  else
    let excess := qMin (qSub diff 3) 7
    qClamp01 (qAdd (mkRat 7 10) (qMul (qDiv excess 7) (mkRat 3 10)))

/-- Python list slicing l[:n] with a possibly negative bound. -/
def pySliceTo {α : Type} (l : List α) (n : Int) : List α :=
  if 0 ≤ n then l.take n.toNat
  else l.take (l.length - min l.length n.natAbs)

/-- _select_worst_day_for_risk: over the lookahead window, the day with
the lowest t_min (frost) or highest t_max (heat); strict comparison, so
the first extreme day wins.  Returns (worst_day, observed, diff,
severity) with Nones encoded as Option. -/
def select_worst_day_for_risk (days : List Json) (risk_type : String) (threshold : ℚ)
    (lookahead : Int) : Option Json × Option ℚ × Option ℚ × ℚ :=
  let consider := pySliceTo days lookahead
  if consider.isEmpty then (none, none, none, 0)
  else
    let pick : Json → Option ℚ := fun d =>
      match d.get (if risk_type = "frost" then "t_min" else "t_max") with
      | Json.num q => some q
      | _ => none
    let best : Option (Json × ℚ) := consider.foldl (fun acc d =>
      match pick d with
      | none => acc
      | some v =>
        match acc with
        | none => some (d, v)
        | some (_, bv) =>
          if risk_type = "frost" then (if qLtB v bv then some (d, v) else acc)
          else (if qLtB bv v then some (d, v) else acc)) none
    match best with
    | none => (none, none, none, 0)
    | some (candidate, best_val) =>
      let diff := if risk_type = "frost" then qSub threshold best_val else qSub best_val threshold
      let severity := if qLtB 0 diff then severity_from_difference diff else 0
      (some candidate, some best_val, some diff, severity)

/-- _build_item. -/
def build_item (name : String) (severity : ℚ) (reasons : List Json) (meta : Json)
    (sources : List Json) : Json :=
  Json.obj [("name", Json.str name), ("score", Json.num (pyRound severity 4)),
    ("reasons", Json.arr reasons), ("tradeoffs", Json.arr []), ("meta", meta),
    ("sources", Json.arr sources)]

/-- temperature_risk.handle. -/
def handle (intent : ActIntent) (facts : Json) : PyM Json :=
  if !facts.truthy ∨ !facts.isObj then
    .ok (Json.obj [("action", Json.str "require_more_info"), ("items", Json.arr []),
      ("confidence", Json.num 0), ("notes", Json.str "No facts provided"),
      ("missing", Json.arr [Json.str "weather_outlook", Json.str "calendar_lookup"])])
  else
    let weather := facts.get "weather_outlook"
    let calendar := facts.get "calendar_lookup"
    let missing := (if !weather.truthy then [Json.str "weather_outlook"] else []) ++
      (if !calendar.truthy then [Json.str "calendar_lookup"] else [])
    if !missing.isEmpty then
      .ok (Json.obj [("action", Json.str "require_more_info"), ("items", Json.arr []),
        ("confidence", Json.num 0), ("notes", Json.str "Missing required tool outputs"),
        ("missing", Json.arr missing)])
    else
      let lookahead_days : Int :=
        match actAttr intent "lookahead_days" with
        | Json.null => DEFAULT_LOOKAHEAD_DAYS
        | la => match pyInt la with | some n => n | none => DEFAULT_LOOKAHEAD_DAYS
      let days := normalize_forecast_days (pyOr weather (Json.obj []))
      if days.isEmpty then
        .ok (Json.obj [("action", Json.str "require_more_info"), ("items", Json.arr []),
          ("confidence", Json.num 0),
          ("notes", Json.str "No usable forecast entries in weather_outlook.forecast"),
          ("missing", Json.arr [Json.str "weather_outlook.forecast"])])
      else
        let crop_stage := pyOr (actAttr intent "crop_stage") (actAttr intent "growth_stage")
        let crop_stage :=
          if !crop_stage.truthy then safe_get calendar ["current_stage", "crop_stage", "stage"]
          else crop_stage
        let thresholds := get_stage_thresholds (pyOr calendar (Json.obj [])) crop_stage
        let frost_threshold := thresholds.1
        let heat_threshold := thresholds.2
        let sources : List Json :=
          match merge_provenance Json.null facts with
          | .ok merged => merged.take 3
          | .error _ =>
            if weather.isObj then
              let wp := pyOr (weather.get "provider") (weather.get "source")
              if wp.truthy then
                [Json.obj [("source_id", wp), ("source_type", Json.str "weather"),
                  ("tool", Json.str "weather_outlook")]]
              else []
            else []
        let frostRes := select_worst_day_for_risk days "frost" frost_threshold lookahead_days
        let frostItems : List Json :=
          match frostRes with
          | (some worst_day, some observed_tmin, some diff_frost, severity_frost) =>
            if severity_frost ≠ 0 ∧ qLtB 0 severity_frost then
              let date_str := worst_day.get "date"
              let reasons := [Json.str ("predicted_min_temp=" ++ fmtQ observed_tmin ++ "C on " ++ pyStr date_str),
                Json.str ("threshold_frost=" ++ fmtQ frost_threshold ++ "C"),
                Json.str ("breach_by=" ++ fmtQ diff_frost ++ "C")]
              let meta := Json.obj [("worst_date", date_str), ("observed_tmin", Json.num observed_tmin),
                ("threshold_frost", Json.num frost_threshold), ("diff", Json.num (pyRound diff_frost 3))]
              [build_item "frost_risk" severity_frost reasons meta sources]
            else []
          | _ => []
        let heatRes := select_worst_day_for_risk days "heat" heat_threshold lookahead_days
        let heatItems : List Json :=
          match heatRes with
          | (some worst_day_h, some observed_tmax, some diff_heat, severity_heat) =>
            if severity_heat ≠ 0 ∧ qLtB 0 severity_heat then
              let date_str := worst_day_h.get "date"
              let reasons := [Json.str ("predicted_max_temp=" ++ fmtQ observed_tmax ++ "C on " ++ pyStr date_str),
                Json.str ("threshold_heat=" ++ fmtQ heat_threshold ++ "C"),
                Json.str ("exceed_by=" ++ fmtQ diff_heat ++ "C")]
              let meta := Json.obj [("worst_date", date_str), ("observed_tmax", Json.num observed_tmax),
                ("threshold_heat", Json.num heat_threshold), ("diff", Json.num (pyRound diff_heat 3))]
              [build_item "heat_risk" severity_heat reasons meta sources]
            else []
          | _ => []
        let items := frostItems ++ heatItems
        let prov_entries := extract_provenance_from_facts (pyOr facts (Json.obj []))
        if items.isEmpty then
          let notes := "No frost or heat risk detected in next " ++ toString lookahead_days ++
            " days based on thresholds (frost: " ++ fmtQ frost_threshold ++ "C, heat: " ++
            fmtQ heat_threshold ++ "C)."
          let heuristic_conf : ℚ := if days.length > 0 then mkRat 75 100 else mkRat 4 10
          -- the helper receives only uncanonical signal names, so it
          -- reaches its neutral fallback (facts defaults to empty there)
          let signals := Json.obj [("num_forecast_days", Json.num (days.length : ℚ)),
            ("has_forecast", Json.bool (!days.isEmpty)), ("heuristic_conf", Json.num heuristic_conf)]
          let helper_conf := compute_confidence signals Json.null []
          let handler_conf :=
            if !prov_entries.isEmpty then
              qAdd (qMul (mkRat 6 10) helper_conf) (qMul (mkRat 4 10) heuristic_conf)
            else
              qAdd (qMul (mkRat 8 10) heuristic_conf) (qMul (mkRat 2 10) helper_conf)
          let handler_conf := pyRound (qClamp01 handler_conf) 4
          .ok (Json.obj [("action", Json.str "frost_or_heat_risk_assessment"),
            ("items", Json.arr []), ("handler_confidence", Json.num handler_conf),
            ("confidence", Json.null), ("notes", Json.str notes)])
        else
          let confidences := items.filterMap (fun it =>
            if it.isObj then some ((pyFloat (it.get "score")).getD 0) else none)
          let base_conf := if !confidences.isEmpty then qMean confidences else mkRat 1 2
          let signal_dict := Json.obj [("handler_confidence", Json.num base_conf),
            ("items_mean_score", Json.num base_conf), ("n_items", Json.num (items.length : ℚ)),
            ("num_forecast_days", Json.num (days.length : ℚ))]
          let helper_conf := compute_confidence signal_dict facts ["weather_outlook", "calendar_lookup"]
          let final_conf :=
            if !prov_entries.isEmpty then
              qAdd (qMul (mkRat 6 10) helper_conf) (qMul (mkRat 4 10) base_conf)
            else
              qAdd (qMul (mkRat 8 10) base_conf) (qMul (mkRat 2 10) helper_conf)
          let final_conf := pyRound (qClamp01 final_conf) 4
          let notes := "Detected temperature risks for next " ++ toString lookahead_days ++ " days."
          .ok (Json.obj [("action", Json.str "frost_or_heat_risk_assessment"),
            ("items", Json.arr items), ("handler_confidence", Json.num final_conf),
            ("confidence", Json.null), ("notes", Json.str notes)])

end TemperatureRisk

/-! ## rules/market_advice.py -/

namespace MarketAdvice

def TREND_WINDOW_DAYS : Int := 14

def MIN_PRICE_POINTS : Nat := 3

def HOLD_PCT_THRESHOLD : ℚ := mkRat 3 100

def VOLATILITY_THRESHOLD : ℚ := mkRat 8 100

/-- Integer square root (floor) by descending binary digits; exact for
every n < 2 to the 192, far beyond any quantity in this embedding
(Nat.sqrt itself does not reduce in the kernel). -/
def isqrtAux (n : Nat) : Nat → Nat → Nat
  | 0, r => r
  | Nat.succ b, r =>
    let cand := r + 2 ^ b
    if cand * cand ≤ n then isqrtAux n b cand else isqrtAux n b r

def isqrt (n : Nat) : Nat := isqrtAux n 96 0

/-- Deterministic rational model of the square root computed by
statistics.pstdev on binary doubles: the floor of the exact square root
at a granularity of 10 to the -9 relative to the denominator.  No claim
depends on the approximation error. -/
def ratSqrt (q : ℚ) : ℚ :=
  if qLeB q 0 then 0
  else mkRat (isqrt (q.num.toNat * q.den * (10 ^ 18)) : Nat) (q.den * (10 ^ 9))

/-- Population variance. -/
def pvariance (xs : List ℚ) : ℚ :=
  let m := qMean xs
  qMean (xs.map (fun x => qMul (qSub x m) (qSub x m)))

/-- statistics.pstdev (population standard deviation). -/
def pstdev (xs : List ℚ) : ℚ := ratSqrt (pvariance xs)

/-- safe_get(d, *keys). -/
def safe_get (d : Json) (keys : List String) (default : Json := Json.null) : Json :=
  if !d.isObj then default
  else
    match keys.find? (fun k => d.hasKey k && !((d.get k) == Json.null)) with
    | some k => d.get k
    | none => default

def isDigitChar (c : Char) : Bool := c.isDigit

/-- Shape check for the first ten characters of an ISO-ish date string
(YYYY-MM-DD). -/
def validYMD : List Char → Bool
  | [y1, y2, y3, y4, '-', m1, m2, '-', d1, d2] =>
    isDigitChar y1 && isDigitChar y2 && isDigitChar y3 && isDigitChar y4 &&
    isDigitChar m1 && isDigitChar m2 && isDigitChar d1 && isDigitChar d2
  | _ => false

/-- _parse_date: a parseable date string is normalised to an ISO string
with a trailing Z.  Time-of-day components are truncated to the day (the
strptime fallback of the source does the same; every claim uses
day-resolution dates, for which lexicographic order of the normalised
strings is chronological order). -/
def parse_date (s : Json) : Option String :=
  match s with
  | .str st =>
    if validYMD (st.data.take 10) then some (⟨st.data.take 10⟩ ++ "T00:00:00Z")
    else none
  | _ => none

/-- One record of _extract_price_history: (parsed date, price). -/
def extractRecord (dateKeys priceKeys : List String) (rec : Json) : Option (Option String × ℚ) :=
  if !rec.isObj then none
  else
    let date_raw := dateKeys.foldl (fun acc k => pyOr acc (rec.get k)) Json.null
    let price_raw := priceKeys.foldl (fun acc k => pyOr acc (rec.get k)) Json.null
    let d := parse_date date_raw
    let p := if price_raw = Json.null then none else pyFloat price_raw
    match p with
    | none => none
    | some pv => some (d, pv)

def dateLe (a b : Option String × ℚ) : Prop :=
  strLeB ((a.1).getD "") ((b.1).getD "") = true

instance : DecidableRel dateLe := fun a b => by
  unfold dateLe; infer_instance

/-- _extract_price_history: records from the dict or list shapes, dated
records stably sorted ascending by date first, undated records after in
original order (Python sorted is stable; so is this insertion sort keyed
only on the date). -/
def extract_price_history (prices_out : Json) : List (Option String × ℚ) :=
  let records : List (Option String × ℚ) :=
    if prices_out.isObj then
      let candidates := pyOr (pyOr (pyOr (pyOr (prices_out.get "price_history")
        (prices_out.get "priceHistory")) (prices_out.get "prices")) (prices_out.get "data"))
        (prices_out.get "series")
      if candidates.isArr then
        candidates.elems.filterMap (extractRecord
          ["date", "timestamp", "ts", "arrival_date"]
          ["price", "value", "price_per_qtl", "price_per_kg", "price_value", "modal_price_rs_per_qtl"])
      else []
    else if prices_out.isArr then
      prices_out.elems.filterMap (extractRecord
        ["date", "timestamp", "arrival_date"]
        ["price", "value", "modal_price_rs_per_qtl"])
    else []
  let dated := records.filter (fun r => r.1.isSome)
  let undated := records.filter (fun r => r.1.isNone)
  let dated_sorted := List.insertionSort dateLe dated
  dated_sorted ++ undated

/-- Python slice series[-window:] (negative window values drop a prefix,
as in the source applied verbatim). -/
def sliceLast {α : Type} (l : List α) (w : Int) : List α :=
  if 0 ≤ w then l.drop (l.length - min l.length w.toNat)
  else l.drop w.natAbs

structure TrendStats where
  last_price : ℚ
  predicted_price : ℚ
  expected_pct_change : ℚ
  slope_per_step : ℚ
  volatility_returns : ℚ
  cov_prices : ℚ
  n_points : Nat
deriving DecidableEq

/-- _compute_trend_and_volatility: OLS slope on index against price over
the trailing window, next-day prediction, expected percent change,
population volatility of simple returns, and the coefficient of
variation of prices. -/
def compute_trend_and_volatility (series : List (Option String × ℚ)) (window : Int) :
    Option TrendStats :=
  if series.isEmpty ∨ series.length < MIN_PRICE_POINTS then none
  else
    let s := if series.length ≥ window then sliceLast series window else series
    let prices := s.map (·.2)
    let n := prices.length
    if n < MIN_PRICE_POINTS then none
    else
      let xs : List ℚ := (List.range n).map (fun i => (i : ℚ))
      let ys := prices
      let mean_x := qDiv (qSum xs) (n : ℚ)
      let mean_y := qDiv (qSum ys) (n : ℚ)
      let num := qSum ((xs.zip ys).map (fun xy => qMul (qSub xy.1 mean_x) (qSub xy.2 mean_y)))
      let den := qSum (xs.map (fun xi => qMul (qSub xi mean_x) (qSub xi mean_x)))
      let slope := if den ≠ 0 then qDiv num den else 0
      let lastP := ys.getLastD 0
      let predicted := qAdd lastP slope
      let expected_pct_change := if lastP ≠ 0 then qDiv (qSub predicted lastP) lastP else 0
      let returns := ((ys.zip (ys.drop 1)).filterMap (fun pc =>
        if pc.1 ≠ 0 then some (qDiv (qSub pc.2 pc.1) pc.1) else none))
      let vol := if !returns.isEmpty then pstdev returns else 0
      let mean_price := qMean ys
      let stdev_price := pstdev ys
      let cov := if mean_price ≠ 0 then qDiv stdev_price mean_price else 0
      some ⟨lastP, predicted, expected_pct_change, slope, vol, cov, n⟩

/-- _extract_storage_cost. -/
def extract_storage_cost (storage_out : Json) : Option ℚ :=
  if !storage_out.truthy ∨ !storage_out.isObj then none
  else
    ["cost_per_month", "monthly_cost", "cost", "cost_per_qtl_per_month", "cost_per_qtl",
     "storage_cost"].findSome? (fun k =>
      let v := storage_out.get k
      if v = Json.null then none else pyFloat v)

/-- _handle_insufficient_price_data: a basic one-item recommendation
from the latest price and storage availability (fewer than three usable
price points).  Malformed storage shapes can raise here exactly as in
the source (no try surrounds this helper). -/
def handle_insufficient_price_data (series : List (Option String × ℚ)) (facts : Json) :
    PyM Json :=
  if series.isEmpty then
    .ok (Json.obj [("action", Json.str "require_more_info"), ("items", Json.arr []),
      ("confidence", Json.num 0), ("notes", Json.str "No price data available"),
      ("missing", Json.arr [Json.str "prices_fetch.price_history"])])
  else do
    let latest_price := (series.getLastD (none, 0)).2
    let storage_out := pyOr (facts.get "storage_find") (facts.get "storage")
    let avail ←
      if storage_out.truthy then
        if storage_out.isObj then do
          let d := (storage_out.lookup "data").getD (Json.obj [])
          let fac1 ←
            if d.isObj then pure ((d.lookup "facilities").getD (Json.arr []))
            else raiseAttrError "object has no attribute get"
          let facilities := pyOr fac1 ((storage_out.lookup "facilities").getD (Json.arr []))
          if facilities.truthy then do
            let fs ← pyIterE facilities
            let active ← fs.filterM (fun f => do
              let st ← if f.isObj then pure ((f.lookup "status").getD (Json.str "")) else
                raiseAttrError "object has no attribute get"
              match st with
              | .str s => pure (pyLower s == "active")
              | _ => raiseAttrError "object has no attribute lower")
            if !active.isEmpty then
              pure (true, "Storage available at " ++ toString active.length ++ " facilities")
            else pure (false, "")
          else pure (false, "")
        else pure (false, "")
      else pure (false, "")
    let storage_available := avail.1
    let storage_note := avail.2
    let (recommendation, reason, confidence) : String × String × ℚ :=
      if storage_available then
        ("hold_short_term",
         "Limited price history available. Storage facilities accessible - consider holding for better price discovery.",
         mkRat 4 10)
      else
        ("sell_now",
         "Limited price history and storage options. Recommend immediate sale to avoid uncertainty.",
         mkRat 3 10)
    let item := Json.obj [("name", Json.str recommendation), ("score", Json.num confidence),
      ("current_price", Json.num latest_price),
      ("price_points_available", Json.num (series.length : ℚ)),
      ("reasons", Json.arr [Json.str reason]),
      ("tradeoffs", Json.arr [Json.str "Limited price history - trend analysis not possible"]),
      ("meta", Json.obj [("price_history_insufficient", Json.bool true),
        ("storage_available", Json.bool storage_available),
        ("storage_note", Json.str storage_note),
        ("current_price", Json.num latest_price)]),
      ("sources", Json.arr [])]
    .ok (Json.obj [("action", Json.str "basic_market_recommendation"),
      ("items", Json.arr [item]), ("handler_confidence", Json.num confidence),
      ("confidence", Json.null),
      ("notes", Json.str ("Basic recommendation based on " ++ toString series.length ++
        " price point(s). For better analysis, provide at least " ++ toString MIN_PRICE_POINTS ++
        " price points."))])

/-- market_advice.handle. -/
def handle (intent : ActIntent) (facts : Json) : PyM Json :=
  if !facts.truthy ∨ !facts.isObj then
    .ok (Json.obj [("action", Json.str "require_more_info"), ("items", Json.arr []),
      ("confidence", Json.num 0), ("notes", Json.str "No facts provided"),
      ("missing", Json.arr [Json.str "prices_fetch"])])
  else
    let prices_out := pyOr (facts.get "prices_fetch") (facts.get "prices")
    if !prices_out.truthy then
      .ok (Json.obj [("action", Json.str "require_more_info"), ("items", Json.arr []),
        ("confidence", Json.num 0),
        ("notes", Json.str "Missing required tool output prices_fetch"),
        ("missing", Json.arr [Json.str "prices_fetch"])])
    else
      let series := extract_price_history prices_out
      if series.isEmpty then
        .ok (Json.obj [("action", Json.str "require_more_info"), ("items", Json.arr []),
          ("confidence", Json.num 0), ("notes", Json.str "No price data found"),
          ("missing", Json.arr [Json.str "prices_fetch.price_history"])])
      else if series.length < MIN_PRICE_POINTS then
        handle_insufficient_price_data series facts
      else
        let window : Int :=
          match actAttr intent "trend_window_days" with
          | Json.null => TREND_WINDOW_DAYS
          | w => match pyInt w with | some n => n | none => TREND_WINDOW_DAYS
        match compute_trend_and_volatility series window with
        | none =>
          .ok (Json.obj [("action", Json.str "require_more_info"), ("items", Json.arr []),
            ("confidence", Json.num 0),
            ("notes", Json.str "Unable to compute trend/volatility from price history"),
            ("missing", Json.arr [])])
        | some stats =>
          let storage_out := pyOr (facts.get "storage_find") (facts.get "storage")
          let storage_cost := extract_storage_cost storage_out
          let expected_pct := stats.expected_pct_change
          let cov := stats.cov_prices
          let vol_returns := stats.volatility_returns
          let last_price := stats.last_price
          let predicted_price := stats.predicted_price
          let reasons : List Json :=
            [Json.str ("predicted_pct_change=" ++ fmtQ expected_pct),
             Json.str ("price_cov=" ++ fmtQ cov),
             Json.str ("volatility_returns=" ++ fmtQ vol_returns)]
          let meta := Json.obj ([("last_price", Json.num last_price),
            ("predicted_price", Json.num predicted_price),
            ("expected_pct_change", Json.num expected_pct),
            ("slope_per_step", Json.num stats.slope_per_step),
            ("volatility_returns", Json.num vol_returns),
            ("cov_prices", Json.num cov),
            ("n_points", Json.num (stats.n_points : ℚ))] ++
            (match storage_cost with
             | some sc => [("storage_cost", Json.num sc)]
             | none => []))
          let reasons := reasons ++
            (match storage_cost with
             | some sc => [Json.str ("storage_cost=" ++ fmtQ sc)]
             | none => [])
          let (decision, rationale, reasons) : String × String × List Json :=
            if qLeB HOLD_PCT_THRESHOLD expected_pct ∧ qLeB cov VOLATILITY_THRESHOLD then
              ("hold", "Predicted price increase and low volatility - prefer holding",
               reasons ++ [Json.str "rule: expected_pct >= HOLD_PCT_THRESHOLD and cov <= VOLATILITY_THRESHOLD"])
            else
              match storage_cost with
              | some sc =>
                if qLtB 0 last_price then
                  let storage_cost_pct := qDiv sc last_price
                  if qLtB storage_cost_pct expected_pct ∧ qLeB cov VOLATILITY_THRESHOLD then
                    ("hold", "Expected gain exceeds estimated storage cost (rough), and volatility low",
                     reasons ++ [Json.str ("storage_cost_pct=" ++ fmtQ storage_cost_pct)])
                  else
                    ("sell", "Predicted price change below threshold or high volatility", reasons)
                else ("sell", "Predicted price change below threshold or high volatility", reasons)
              | none => ("sell", "Predicted price change below threshold or high volatility", reasons)
          let n_pts := stats.n_points
          let base := qMin (mkRat 9 10) (qAdd (mkRat 4 10) (qMul (mkRat 5 100) (n_pts : ℚ)))
          let vol_factor := qMax 0 (qSub 1 (qMin 1 (qMul cov 3)))
          let heuristic_conf := qMul base vol_factor
          let prov_entries := extract_provenance_from_facts (pyOr facts (Json.obj []))
          let signals := Json.obj [("handler_confidence", Json.num heuristic_conf),
            ("items_mean_score", if (Json.num expected_pct).truthy then Json.num expected_pct else Json.num (mkRat 1 2)),
            ("facts_mean_confidence", if qLtB cov 1 then Json.num (qSub 1 cov) else Json.num (mkRat 1 2))]
          let helper_conf := compute_confidence signals Json.null []
          let confidence :=
            if !prov_entries.isEmpty then
              qAdd (qMul (mkRat 6 10) helper_conf) (qMul (mkRat 4 10) heuristic_conf)
            else
              qAdd (qMul (mkRat 8 10) heuristic_conf) (qMul (mkRat 2 10) helper_conf)
          let confidence := pyRound (qClamp01 confidence) 4
          let sources : List Json :=
            match merge_provenance Json.null facts with
            | .ok merged => merged
            | .error _ =>
              let prov_src := pyOr (safe_get prices_out ["provider"]) (safe_get prices_out ["source"])
              if prov_src.truthy then
                [Json.obj [("source_id", prov_src), ("source_type", Json.str "market"),
                  ("tool", Json.str "prices_fetch")]]
              else []
          let item := Json.obj [("name", Json.str decision),
            ("score", Json.num (pyRound confidence 4)),
            ("reasons", Json.arr (Json.str rationale :: reasons)),
            ("tradeoffs", Json.arr [Json.str (if decision = "hold" then
              "Holding may incur storage costs and price uncertainty"
              else "Selling may forgo potential price increase")]),
            ("meta", meta), ("sources", Json.arr sources)]
          let notes := "Decision: " ++ decision ++ ". Predicted next price " ++
            fmtQ predicted_price ++ ", expected pct change " ++ fmtQ expected_pct ++ "."
          .ok (Json.obj [("action", Json.str "sell_or_hold_decision"),
            ("items", Json.arr [item]),
            ("handler_confidence", Json.num (pyRound confidence 4)),
            ("confidence", Json.null), ("notes", Json.str notes)])

end MarketAdvice

/-! ## rules/pesticide_advice.py -/

namespace PesticideAdvice

/-- safe_get(d, *keys). -/
def safe_get (d : Json) (keys : List String) (default : Json := Json.null) : Json :=
  if !d.isObj then default
  else
    match keys.find? (fun k => d.hasKey k && !((d.get k) == Json.null)) with
    | some k => d.get k
    | none => default

/-- _normalize_products: a dict with a products/items/data list, a dict
that itself looks like a product, or a list of dicts. -/
def normalize_products (pest_out : Json) : List Json :=
  if pest_out = Json.null then []
  else if pest_out.isObj then
    let products := pyOr (pyOr (pest_out.get "products") (pest_out.get "items")) (pest_out.get "data")
    if products.isArr then products.elems
    else if ["name", "active_ingredient", "target_pests", "crops"].any (fun k => pest_out.hasKey k) then
      [pest_out]
    else []
  else if pest_out.isArr then pest_out.elems.filter Json.isObj
  else []

/-- _matches_pest: case-insensitive substring match in both directions
against the target list (raises on a non-dict product, as .get does). -/
def matches_pest (product : Json) (pest_names : List Json) : PyM Bool :=
  if pest_names.isEmpty then .ok false
  else do
    let t1 ← product.getE "target_pests"
    let t2 ← product.getE "targets"
    let t3 ← product.getE "pests"
    let targets := pyOr (pyOr (pyOr t1 t2) t3) (Json.arr [])
    if !targets.truthy then .ok false
    else do
      let ts ← pyIterE targets
      let targets_norm := (ts.filter (fun t => !(t == Json.null))).map (fun t => pyLower (pyStr t))
      .ok (pest_names.any (fun p =>
        if !p.truthy then false
        else
          let pl := pyLower (pyStr p)
          targets_norm.any (fun t => strIn pl t || strIn t pl)))

/-- _matches_crop: products without a crops list are not rejected. -/
def matches_crop (product : Json) (crop : Json) : PyM Bool :=
  if !crop.truthy then .ok true
  else do
    let c1 ← product.getE "crops"
    let c2 ← product.getE "allowed_crops"
    let c3 ← product.getE "crop_list"
    let crops := pyOr (pyOr (pyOr c1 c2) c3) (Json.arr [])
    if !crops.truthy then .ok true
    else do
      let cs ← pyIterE crops
      let cl := pyLower (pyStr crop)
      .ok (cs.any (fun c => strIn cl (pyLower (pyStr c)) || strIn (pyLower (pyStr c)) cl))

/-- _phi_ok: None when either side is unknown, else phi <= days. -/
def phi_ok (phi_days days_to_harvest : Option ℚ) : Option Bool :=
  match phi_days, days_to_harvest with
  | some p, some d => some (qLeB p d)
  | _, _ => none

/-- _norm_val of _product_confidence. -/
def normVal (v : Json) : ℚ :=
  match v with
  | .bool b => if b then 1 else 0
  | _ =>
    match pyFloat v with
    | some val =>
      let val := if qLtB 1 val ∧ qLeB val 100 then qDiv val 100 else val
      qClamp01 val
    | none => 0

/-- _product_confidence: heuristic weighted average of pest/crop/PHI
signals, blended with the central combiner (70/30 when the product
carries provenance, 30/70 otherwise). -/
def product_confidence (product : Json) (signals : List (String × Json)) : ℚ :=
  let weights : List (String × ℚ) := [("pest_match", mkRat 4 10), ("crop_match", mkRat 4 10),
    ("phi_ok", mkRat 2 10)]
  let norm_signals := signals.map (fun kv => (kv.1, normVal kv.2))
  let parts := weights.filterMap (fun kw =>
    (norm_signals.find? (fun kv => kv.1 == kw.1)).map (fun kv => (kv.2, kw.2)))
  let total_w := qSum (parts.map (·.2))
  let weighted := qSum (parts.map (fun pw => qMul pw.1 pw.2))
  let heuristic_conf := if qLtB 0 total_w then qDiv weighted total_w else mkRat 1 2
  let prov_entries : List Json :=
    if product.isObj then
      let pe := pyOr (product.get "provenance") (product.get "prov")
      let pe := pyOr pe (Json.arr [])
      if pe.isObj then [pe]
      else if pe.isArr then pe.elems
      else []
    else []
  let helper_conf := compute_confidence (Json.obj [("handler_confidence", Json.num heuristic_conf),
    ("items_mean_score", Json.num heuristic_conf), ("facts_mean_confidence", Json.num (mkRat 8 10))])
    Json.null []
  let combined :=
    if !prov_entries.isEmpty then
      qAdd (qMul (mkRat 7 10) helper_conf) (qMul (mkRat 3 10) heuristic_conf)
    else
      qAdd (qMul (mkRat 3 10) helper_conf) (qMul (mkRat 7 10) heuristic_conf)
  pyRound (qClamp01 combined) 4

structure Cand where
  product : Json
  name : Json
  confidence : ℚ
  reasons : List Json
  tradeoffs : List Json
  meta : Json
deriving DecidableEq

/-- Reading of days_to_harvest from the intent, falling back to the
calendar fields; the whole block is inside a try whose failure leaves
days_to_harvest unknown. -/
def daysToHarvestOf (intent : ActIntent) (facts : Json) : Option ℚ :=
  let calendar := pyOr (facts.get "calendar_lookup") (Json.obj [])
  let dtE : PyM Json := do
    let dt := actAttr intent "days_to_harvest"
    if dt == Json.null then do
      let a ← calendar.getE "days_to_harvest"
      let b ← calendar.getE "days_until_harvest"
      let c ← calendar.getE "days_to_maturity"
      pure (pyOr (pyOr a b) c)
    else pure dt
  match dtE with
  | .error _ => none
  | .ok dt => if dt == Json.null then none else pyFloat dt

/-- Per-product candidate construction (the body of the try inside the
candidate loop of handle; an exception skips the product). -/
def candBody (user_crop user_pest : Json) (pests_from_rag : List Json)
    (days_to_harvest : Option ℚ) (p : Json) : PyM Cand := do
  let pname := pyOr (pyOr (pyOr (safe_get p ["name"]) (safe_get p ["product_name"]))
    (safe_get p ["title"])) (Json.str "unknown_product")
  let crop_ok ← matches_crop p user_crop
  let pests_to_check := (if user_pest.truthy then [user_pest] else []) ++ pests_from_rag
  let pest_ok : Option Bool ←
    if !pests_to_check.isEmpty then do
      let r ← matches_pest p pests_to_check
      pure (some r)
    else pure none
  let phi_raw := pyOr (pyOr (safe_get p ["pre_harvest_interval_days"]) (safe_get p ["phi_days"]))
    (safe_get p ["pre_harvest_interval"])
  let phi : Option ℚ := if phi_raw ≠ Json.null then pyFloat phi_raw else none
  let phi_safe := phi_ok phi days_to_harvest
  let restricted := pyOr (pyOr (safe_get p ["restricted"]) (safe_get p ["is_restricted"]))
    (Json.bool false)
  let toxicity := pyOr (pyOr (safe_get p ["toxicity_category"]) (safe_get p ["toxicity"])) Json.null
  let meta := Json.obj [("active_ingredient", safe_get p ["active_ingredient"]),
    ("phi_days", match phi with | some q => Json.num q | none => Json.null),
    ("max_dosage", pyOr (safe_get p ["max_dosage"]) (safe_get p ["dosage"])),
    ("allowed_crops", pyOr (safe_get p ["crops"]) (safe_get p ["allowed_crops"])),
    ("restricted", Json.bool restricted.truthy),
    ("toxicity_category", toxicity),
    ("source", safe_get p ["source"])]
  let (reasons1, crop_sig) : List Json × ℚ :=
    if user_crop.truthy then
      if crop_ok then ([Json.str "compatible_with_crop"], 1)
      else
        ([Json.str (if (meta.get "allowed_crops").truthy then "crop_mismatch" else "crop_unspecified")],
         if (meta.get "allowed_crops").truthy then 0 else mkRat 1 2)
    else ([], mkRat 1 2)
  let rp : List Json × ℚ ←
    if !pests_to_check.isEmpty then
      if pest_ok = some true then pure ([Json.str "targets_reported_pest"], (1 : ℚ))
      else do
        let tp ← p.getE "target_pests"
        pure ([Json.str (if tp.truthy then "does_not_target_reported_pest" else "target_pests_unspecified")],
          if tp.truthy then (0 : ℚ) else mkRat 1 2)
    else pure ([], mkRat 1 2)
  let (reasons2, pest_sig) := rp
  let (reasons3, tradeoffs1, phi_sig) : List Json × List Json × ℚ :=
    match phi with
    | some phv =>
      match phi_safe with
      | some true => ([Json.str "phi_ok"], [], 1)
      | some false =>
        ([Json.str "phi_exceeds_days_to_harvest"],
         [Json.str ("PHI " ++ fmtQ phv ++ "d > days_to_harvest " ++
           (match days_to_harvest with | some d => fmtQ d | none => "None"))], 0)
      | none => ([], [], mkRat 1 2)
    | none => ([], [], mkRat 1 2)
  let (tradeoffs2, restr_sig) : List Json × ℚ :=
    if restricted.truthy then ([Json.str "restricted_use"], 0) else ([], 1)
  let tox_sig : ℚ :=
    if toxicity ≠ Json.null then
      match pyFloat toxicity with
      | some tox_val => if qLtB 3 tox_val then 0 else 1
      | none =>
        let tl := pyLower (pyStr toxicity)
        if strIn "high" tl then 0
        else if strIn "medium" tl then mkRat 1 2
        else 1
    else mkRat 8 10
  let signals : List (String × Json) := [("crop_match", Json.num crop_sig),
    ("pest_match", Json.num pest_sig), ("phi_ok", Json.num phi_sig),
    ("restricted", Json.num restr_sig), ("toxicity_ok", Json.num tox_sig)]
  let prod_conf := product_confidence p signals
  .ok ⟨p, pname, prod_conf, reasons1 ++ reasons2 ++ reasons3, tradeoffs1 ++ tradeoffs2, meta⟩

def confGe (a b : Cand) : Prop := qLeB b.confidence a.confidence = true

instance : DecidableRel confGe := fun a b => by
  unfold confGe; infer_instance

/-- The candidate accumulation loop of handle (an exception skips the
product). -/
def candidatesOf (user_crop user_pest : Json) (pests_from_rag : List Json)
    (days_to_harvest : Option ℚ) (products : List Json) : List Cand :=
  products.foldl (fun acc p =>
    match candBody user_crop user_pest pests_from_rag days_to_harvest p with
    | .ok c => acc ++ [c]
    | .error _ => acc) []

/-- The PHI hard filter of handle (lines 443-448 of the source): a
candidate with a numeric PHI above a known days_to_harvest is
dropped. -/
def phiFiltered (days_to_harvest : Option ℚ) (candidates : List Cand) : List Cand :=
  candidates.filter (fun c =>
    match c.meta.get "phi_days", days_to_harvest with
    | Json.num phv, some d => !(qLtB d phv)
    | _, _ => true)

/-- One result item built from a candidate. -/
def candItem (mergedProv : List Json) (c : Cand) : Json :=
  let src := c.meta.get "source"
  let sources0 : List Json :=
    if src.truthy then
      [Json.obj [("source_id", src), ("source_type", Json.str "catalog"),
        ("tool", Json.str "pesticide_lookup")]]
    else []
  let sources := sources0 ++ (mergedProv.take 3).filter (fun m => !(sources0.contains m))
  Json.obj [("name", c.name),
    ("score", Json.num (pyRound c.confidence 4)),
    ("reasons", Json.arr c.reasons),
    ("tradeoffs", Json.arr c.tradeoffs),
    ("meta", c.meta),
    ("sources", Json.arr sources)]

/-- The success tail of handle: sort by confidence, take the top 5,
build items and the overall confidence. -/
def pesticideSuccess (facts : Json) (filtered : List Cand) : Json :=
  let sorted_cands := List.insertionSort confGe filtered
  let top_n : Nat := 5
  let mergedProv : List Json :=
    match merge_provenance Json.null facts with
    | .ok merged => merged
    | .error _ => []
  let items := (sorted_cands.take top_n).map (candItem mergedProv)
  let confidences := items.map (fun it => (pyFloat (it.get "score")).getD 0)
  let overall_conf := if !confidences.isEmpty then qMean confidences else 0
  Json.obj [("action", Json.str "pesticide_safe_recommendation"),
    ("items", Json.arr items),
    ("handler_confidence", Json.num (pyRound overall_conf 4)),
    ("confidence", Json.null),
    ("notes", Json.str "Recommended products filtered by pest (if provided), crop compatibility and PHI constraints when available.")]

/-- pesticide_advice.handle. -/
def handle (intent : ActIntent) (facts : Json) : PyM Json :=
  if !facts.truthy ∨ !facts.isObj then
    .ok (Json.obj [("action", Json.str "require_more_info"), ("items", Json.arr []),
      ("confidence", Json.num 0), ("notes", Json.str "No facts provided"),
      ("missing", Json.arr [Json.str "pesticide_lookup"])])
  else
    let pesticide_out := facts.get "pesticide_lookup"
    if !pesticide_out.truthy then
      .ok (Json.obj [("action", Json.str "require_more_info"), ("items", Json.arr []),
        ("confidence", Json.num 0),
        ("notes", Json.str "Missing required tool output pesticide_lookup"),
        ("missing", Json.arr [Json.str "pesticide_lookup"])])
    else
      let user_crop := pyOr (actAttr intent "crop") (actAttr intent "crop_name")
      let user_pest := pyOr (actAttr intent "pest") (actAttr intent "pest_name")
      let rag := pyOr (pyOr (facts.get "rag_search") (facts.get "rag")) (facts.get "extension_notes")
      let pests_from_rag : List Json :=
        if rag.truthy ∧ rag.isObj then
          let pr := pyOr (pyOr (pyOr (rag.get "detected_pests") (rag.get "pests"))
            (rag.get "identified_pests")) (Json.arr [])
          if pr.isStr then [pr]
          else if pr.isArr then pr.elems
          else []
        else []
      let days_to_harvest := daysToHarvestOf intent facts
      let products := normalize_products pesticide_out
      if products.isEmpty then
        .ok (Json.obj [("action", Json.str "require_more_info"), ("items", Json.arr []),
          ("confidence", Json.num 0),
          ("notes", Json.str "No products found in pesticide_lookup"),
          ("missing", Json.arr [])])
      else
        let candidates := candidatesOf user_crop user_pest pests_from_rag days_to_harvest products
        if candidates.isEmpty then
          .ok (Json.obj [("action", Json.str "require_more_info"), ("items", Json.arr []),
            ("confidence", Json.num 0),
            ("notes", Json.str "No pesticide products available after parsing."),
            ("missing", Json.arr [])])
        else
          let filtered := phiFiltered days_to_harvest candidates
          if filtered.isEmpty then
            .ok (Json.obj [("action", Json.str "require_more_info"), ("items", Json.arr []),
              ("confidence", Json.num 0),
              ("notes", Json.str "All available products incompatible with PHI or restricted for this context."),
              ("missing", Json.arr [])])
          else
            .ok (pesticideSuccess facts filtered)

end PesticideAdvice

/-! ## rules/variety_selection.py -/

namespace VarietySelection

/-- _safe_get(var, key, default): var.get in a try, so a non-dict input
falls back to the default. -/
def safe_get (var : Json) (key : String) (default : Json := Json.null) : Json :=
  if var.isObj then (var.lookup key).getD default else default

def qAbs (a : ℚ) : ℚ := if qLtB a 0 then qNeg a else a

/-- _compute_maturity_score: closeness of the variety maturity to the
typical maturity, in 0..1. -/
def compute_maturity_score (var_maturity : Json) (typical_maturity : Option ℚ) : Option ℚ :=
  match typical_maturity with
  | none => none
  | some tm =>
    if var_maturity = Json.null then none
    else
      match pyFloat var_maturity with
      | none => none
      | some vm =>
        if qLeB tm 0 then none
        else some (qClamp01 (qSub 1 (qMin 1 (qDiv (qAbs (qSub vm tm)) tm))))

/-- Contribution of one forecast day inside _avg_forecast_temp_and_rain:
the per-day try appends tmax, tmin and rain in order and an exception
keeps whatever was already appended. -/
def dayContrib (day : Json) : Option ℚ × Option ℚ × Option ℚ :=
  if !day.isObj then (none, none, none)
  else
    let tmax_raw := ["t_max", "tmax", "t_max_c", "tMax", "t_max_celsius"].foldl
      (fun acc k => pyOr acc (day.get k)) Json.null
    let tmin_raw := ["t_min", "tmin", "t_min_c"].foldl (fun acc k => pyOr acc (day.get k)) Json.null
    let rain_raw := ["rain_mm", "precip_mm", "rain", "precipitation"].foldl
      (fun acc k => pyOr acc (day.get k)) Json.null
    if tmax_raw ≠ Json.null then
      match pyFloat tmax_raw with
      | none => (none, none, none)
      | some a =>
        if tmin_raw ≠ Json.null then
          match pyFloat tmin_raw with
          | none => (some a, none, none)
          | some b =>
            if rain_raw ≠ Json.null then
              match pyFloat rain_raw with
              | none => (some a, some b, none)
              | some c => (some a, some b, some c)
            else (some a, some b, none)
        else
          if rain_raw ≠ Json.null then
            match pyFloat rain_raw with
            | none => (some a, none, none)
            | some c => (some a, none, some c)
          else (some a, none, none)
    else
      if tmin_raw ≠ Json.null then
        match pyFloat tmin_raw with
        | none => (none, none, none)
        | some b =>
          if rain_raw ≠ Json.null then
            match pyFloat rain_raw with
            | none => (none, some b, none)
            | some c => (none, some b, some c)
          else (none, some b, none)
      else
        if rain_raw ≠ Json.null then
          match pyFloat rain_raw with
          | none => (none, none, none)
          | some c => (none, none, some c)
        else (none, none, none)

/-- _avg_forecast_temp_and_rain: mean max/min temperature and total rain
over the forecast list (the result carries total_rain, which the climate
signal later reads under the different key total_rain_mm, as in the
source). -/
def avg_forecast_temp_and_rain (weather : Json) : PyM (Option Json) :=
  if !weather.truthy then .ok none
  else do
    let f1 ← weather.getE "forecast"
    let f2 ← weather.getE "daily"
    let fc := pyOr (pyOr f1 f2) (Json.arr [])
    if !fc.isArr ∨ fc.elems.isEmpty then .ok none
    else
      let contribs := fc.elems.map dayContrib
      let temps_max := contribs.filterMap (·.1)
      let temps_min := contribs.filterMap (·.2.1)
      let rains := contribs.filterMap (·.2.2)
      if temps_max.isEmpty ∧ temps_min.isEmpty ∧ rains.isEmpty then .ok none
      else
        .ok (some (Json.obj (
          (if !temps_max.isEmpty then [("mean_max_temp", Json.num (qMean temps_max))] else []) ++
          (if !temps_min.isEmpty then [("mean_min_temp", Json.num (qMean temps_min))] else []) ++
          [("total_rain", Json.num (if !rains.isEmpty then qSum rains else 0))] ++
          [("days", Json.num (fc.elems.length : ℚ))])))

/-- Sum of a Json list of numbers (Python sum; booleans coerce, anything
else raises inside the enclosing try). -/
def sumNums (l : List Json) : Option ℚ :=
  l.foldl (fun acc j =>
    match acc, j with
    | some a, .num q => some (qAdd a q)
    | some a, .bool b => some (qAdd a (if b then 1 else 0))
    | _, _ => none) (some 0)

/-- _compute_climate_signal: hotness/dryness heuristics from either the
parallel-array weather shape or the day-dict forecast shape; raises the
same TypeError/AttributeError as the source on non-dict truthy input. -/
def compute_climate_signal (weather : Json) : PyM (Option Json) :=
  if !weather.truthy then .ok none
  else do
    let m1 ← weather.memE "tmax_c"
    let m2 ← weather.memE "tmin_c"
    let m3 ← weather.memE "rain_mm"
    let forecast_stats : Option Json :=
      if m1 ∧ m2 ∧ m3 ∧ weather.isObj then
        let tmax_values := weather.get "tmax_c"
        let tmin_values := weather.get "tmin_c"
        let rain_values := weather.get "rain_mm"
        if tmax_values.truthy ∧ tmin_values.truthy ∧ rain_values.truthy then
          match sumNums tmax_values.elems, sumNums tmin_values.elems, sumNums rain_values.elems with
          | some sx, some sn, some sr =>
            if tmax_values.isArr ∧ tmin_values.isArr ∧ rain_values.isArr ∧
               !tmax_values.elems.isEmpty ∧ !tmin_values.elems.isEmpty then
              some (Json.obj [("mean_max_temp", Json.num (qDiv sx (tmax_values.elems.length : ℚ))),
                ("mean_min_temp", Json.num (qDiv sn (tmin_values.elems.length : ℚ))),
                ("total_rain_mm", Json.num sr)])
            else none
          | _, _, _ => none
        else none
      else none
    let forecast_stats ←
      match forecast_stats with
      | some fs => pure (some fs)
      | none => avg_forecast_temp_and_rain weather
    match forecast_stats with
    | none => .ok none
    | some fs =>
      let mean_max := fs.get "mean_max_temp"
      let total_rain := fs.get "total_rain_mm"
      let hotness : Option ℚ :=
        match mean_max with
        | .num mm =>
          if qLtB 35 mm then some (qMin 1 (qDiv (qSub mm 35) 5))
          else if qLtB mm 30 then some 0
          else some (qDiv (qSub mm 30) 5)
        | _ => none
      let dryness : Option ℚ :=
        match total_rain with
        | .num tr =>
          if qLtB tr 125 then some (mkRat 8 10)
          else if qLtB tr 200 then some (mkRat 4 10)
          else some (mkRat 1 10)
        | _ => none
      if hotness.isSome ∨ dryness.isSome then
        .ok (some (Json.obj [("hotness", Json.num (hotness.getD 0)),
          ("dryness", Json.num (dryness.getD 0))]))
      else .ok none

/-- _compute_pest_score: mean declared resistance of the variety over
the pests named by rag_search. -/
def compute_pest_score (var : Json) (rag : Json) : PyM (Option ℚ) :=
  if !rag.truthy ∨ !rag.isObj then .ok none
  else
    let pests := pyOr (pyOr (rag.get "pests") (rag.get "detected_pests")) (Json.arr [])
    if !pests.truthy then .ok none
    else do
      let presRaw ← var.getE "pest_resistance"
      let pres := pyOr presRaw (Json.obj [])
      let ps ← pyIterE pests
      let resistances ← ps.foldlM (fun (acc : List ℚ) p => do
        let pname ← if p.isStr then pure p else p.getE "name"
        if !pname.truthy then pure acc
        else do
          let r ←
            if pres.isObj then
              pure (match pname with | .str s => (pres.lookup s).getD Json.null | _ => Json.null)
            else raiseAttrError "object has no attribute get"
          let r :=
            if r = Json.null then
              match pname with
              | .str s => if pres.isObj then (pres.lookup (pyLower s)).getD Json.null else Json.null
              | _ => Json.null
            else r
          if r = Json.null then pure acc
          else
            match pyFloat r with
            | some rv => pure (acc ++ [rv])
            | none => pure acc) []
      if resistances.isEmpty then .ok none
      else .ok (some (qMean resistances))

/-- _create_varieties_from_calendar: pseudo-variety records built from
crop calendar entries (duration, temperature tolerance, irrigation
requirement, default suitability and market preference).  Raises exactly
where the source would (item assignment or .lower on unexpected
shapes). -/
def create_varieties_from_calendar (calendar_data : Json) : PyM (List Json) :=
  if !calendar_data.truthy ∨ !calendar_data.isObj then .ok []
  else do
    let dataVal := (calendar_data.lookup "data").getD (Json.obj [])
    let crops1 ←
      if dataVal.isObj then pure ((dataVal.lookup "crops").getD (Json.arr []))
      else raiseAttrError "object has no attribute get"
    let crops_data := crops1
    let crops_data :=
      if !crops_data.truthy then (calendar_data.lookup "crops").getD (Json.arr [])
      else crops_data
    let crops_data ←
      if !crops_data.truthy then do
        let cal := (calendar_data.lookup "calendar").getD (Json.obj [])
        if cal.isObj then
          (cal.fields.mapM (fun (kv : String × Json) => do
            if !kv.2.isObj then raiseTypeError "object does not support item assignment"
            else pure (Json.obj (assocSet kv.2.fields "crop_name" (Json.str kv.1))))).map Json.arr
        else pure cal
      else pure crops_data
    if !crops_data.isArr then .ok []
    else
      (crops_data.elems.enum.filter (fun ic => ic.2.isObj)).mapM (fun ic => do
        let i := ic.1
        let crop_info := ic.2
        let crop_name := (crop_info.lookup "crop_name").getD (Json.str ("crop_" ++ toString (i + 1)))
        let duration_days : ℚ := 120
        let irrigation_info := (crop_info.lookup "irrigation_ideal").getD (Json.obj [])
        let irrigation_req : Json :=
          if irrigation_info.isObj then (irrigation_info.lookup "seasonal_requirement_mm").getD (Json.num 500)
          else Json.num 500
        let temp_info := (crop_info.lookup "ideal_temp_c").getD (Json.obj [])
        let temp_range : Json :=
          if temp_info.isObj then (temp_info.lookup "range_day").getD (Json.arr [Json.num 20, Json.num 30])
          else Json.arr [Json.num 20, Json.num 30]
        let temp_range :=
          if !temp_range.truthy ∨ !temp_range.isArr then Json.arr [Json.num 20, Json.num 30]
          else temp_range
        let temp_min := if temp_range.elems.length > 0 then temp_range.elems.getD 0 Json.null else Json.num 20
        let temp_max := if temp_range.elems.length > 1 then temp_range.elems.getD 1 Json.null else Json.num 30
        let nameLower ←
          match crop_name with
          | .str s => pure (strReplaceChar (pyLower s) ' ' '_')
          | _ => raiseAttrError "object has no attribute lower"
        let nameLowerKeep ←
          match crop_name with
          | .str s => pure (pyLower s)
          | _ => raiseAttrError "object has no attribute lower"
        pure (Json.obj [("name", crop_name), ("id", Json.str nameLower),
          ("type", Json.str nameLowerKeep),
          ("maturity_days", Json.num duration_days),
          ("temperature_tolerance", Json.obj [("min", temp_min), ("max", temp_max)]),
          ("water_requirement_mm", irrigation_req),
          ("characteristics", Json.obj [
            ("maturity_period", Json.str (fmtQ duration_days ++ " days")),
            ("rainfall_requirement", Json.str (pyStr irrigation_req ++ " mm")),
            ("temperature_range", Json.str (pyStr temp_min ++ "-" ++ pyStr temp_max ++ "°C"))]),
          ("advantages", Json.arr [
            Json.str ("Suitable for " ++ pyStr ((crop_info.lookup "season").getD (Json.str "local")) ++ " season"),
            Json.str "Well adapted to regional conditions"]),
          ("disadvantages", Json.arr []),
          ("suitability_score", Json.num (mkRat 8 10)),
          ("market_preference_score", Json.num (mkRat 7 10)),
          ("source", Json.str ("regional_calendar_" ++ pyStr crop_name))]))

/-- The typical_maturity_days resolution in handle: direct fields, else
the mean crop duration from calendar data; the whole block sits in a
try, so any raise leaves it unknown. -/
def typicalMaturityOf (calendar_out : Json) : Option ℚ :=
  let comp : PyM (Option ℚ) :=
    if !calendar_out.truthy then .ok none
    else do
      let t1 ← calendar_out.getE "typical_maturity_days"
      let t2 ← calendar_out.getE "maturity_days"
      let typical := pyOr t1 t2
      if typical ≠ Json.null then
        pure (pyFloat typical)
      else do
        let calendar_data := (calendar_out.lookup "data").getD (Json.obj [])
        let crops_list ←
          if calendar_data.isObj then pure ((calendar_data.lookup "crops").getD (Json.arr []))
          else raiseAttrError "object has no attribute get"
        if crops_list.truthy ∧ crops_list.isArr then
          let durations := crops_list.elems.filterMap (fun crop =>
            if !crop.isObj then none
            else
              let duration := pyOr (crop.get "duration_days") (crop.get "duration")
              match duration with
              | .num q => if duration.truthy then some q else none
              | .bool b => if b then some 1 else none
              | _ => none)
          if !durations.isEmpty then pure (some (qMean durations))
          else pure none
        else pure none
  match comp with
  | .ok v => v
  | .error _ => none

/-- Per-variety scoring (the body of the try in the variety loop of
handle; an exception skips the variety). -/
def varietyItem (rag soil_out : Json) (typical_maturity : Option ℚ)
    (climate_signal : Option Json) (v : Json) : PyM (ℚ × Json) := do
  let name := pyOr (pyOr (safe_get v "name") (safe_get v "id")) (Json.str "unknown_variety")
  let src := safe_get v "source"
  let sources : List Json :=
    if src.truthy then
      [Json.obj [("source_id", src), ("source_type", Json.str "catalog"),
        ("tool", Json.str "variety_lookup")]]
    else []
  let maturity_score := compute_maturity_score (safe_get v "maturity_days") typical_maturity
  let (reasons1, meta1) : List Json × List (String × Json) :=
    match maturity_score with
    | some ms => ([Json.str ("maturity_match=" ++ fmtQ ms)], [("maturity_days", safe_get v "maturity_days")])
    | none => ([], [])
  let market_pref_raw := safe_get v "market_preference_score"
  let market_pref : Option ℚ :=
    if market_pref_raw ≠ Json.null then pyFloat market_pref_raw else none
  let (reasons2, meta2) : List Json × List (String × Json) :=
    match market_pref with
    | some mp => ([Json.str ("market_pref=" ++ fmtQ mp)], [("market_preference_score", Json.num mp)])
    | none => ([], [])
  let pest_score ← compute_pest_score v rag
  let meta3 : List (String × Json) ←
    match pest_score with
    | some _ => do
      let pr ← v.getE "pest_resistance"
      pure [("pest_resistance", pr)]
    | none => pure []
  let reasons3 : List Json :=
    match pest_score with
    | some ps => [Json.str ("pest_resistance_avg=" ++ fmtQ ps)]
    | none => []
  let (climate_score, reasons4) : Option ℚ × List Json :=
    match climate_signal with
    | some cs =>
      let hotness := match (cs.lookup "hotness").getD (Json.num 0) with | .num q => q | _ => 0
      let dryness := match (cs.lookup "dryness").getD (Json.num 0) with | .num q => q | _ => 0
      let heat_tol_raw := pyOr (pyOr (safe_get v "heat_tolerance") (safe_get v "heat_tolerance_score"))
        (safe_get v "heat_tolerance_index")
      let drought_tol_raw := safe_get v "drought_tolerance"
      let heat_tol := if heat_tol_raw ≠ Json.null then pyFloat heat_tol_raw else none
      let drought_tol := if drought_tol_raw ≠ Json.null then pyFloat drought_tol_raw else none
      let comps :=
        (match heat_tol with
         | some ht => [qAdd (qMul (qSub 1 hotness) 1) (qMul hotness ht)]
         | none => []) ++
        (match drought_tol with
         | some dt => [qAdd (qMul (qSub 1 dryness) 1) (qMul dryness dt)]
         | none => [])
      if !comps.isEmpty then
        let csv := qMean comps
        (some csv, [Json.str ("climate_match=" ++ fmtQ csv)])
      else (none, [])
    | none => (none, [])
  let soilRes : Option ℚ × List Json :=
    let comp : PyM (Option ℚ × List Json) := do
      let p1 ← v.getE "ph_range"
      let p2 ← v.getE "ph_tolerance"
      let var_ph_range := pyOr p1 p2
      if var_ph_range.truthy ∧ var_ph_range.isArr ∧ soil_out.truthy then do
        let s1 ← soil_out.getE "pH"
        let s2 ← soil_out.getE "ph"
        let soil_ph := pyOr s1 s2
        if soil_ph ≠ Json.null then
          match var_ph_range.elems with
          | lowJ :: highJ :: _ =>
            (match pyFloat lowJ, pyFloat highJ, pyFloat soil_ph with
             | some low, some high, some sp =>
               let score :=
                 if qLeB low sp ∧ qLeB sp high then (1 : ℚ)
                 else qMax 0 (qSub 1 (qAbs (qDiv (qSub sp (qDiv (qAdd low high) 2))
                   (if qSub high low ≠ 0 then qDiv (qSub high low) 2 else 1))))
               pure (some score, [Json.str ("soil_ph_match=" ++ fmtQ score)])
             | _, _, _ => pure (none, []))
          | _ => pure (none, [])
        else pure (none, [])
      else pure (none, [])
    match comp with
    | .ok r => r
    | .error _ => (none, [])
  let (soil_score, reasons5) := soilRes
  let meta4 : List (String × Json) :=
    let ey := safe_get v "expected_yield_t_ha"
    if ey ≠ Json.null then [("expected_yield_t_ha", ey)] else []
  let (meta5, tradeoffs) : List (String × Json) × List Json :=
    let sc := safe_get v "seed_cost_per_kg"
    if sc ≠ Json.null then ([("seed_cost_per_kg", sc)], [Json.str ("seed_cost=" ++ pyStr sc)])
    else ([], [])
  let scores := (match maturity_score with | some s => [s] | none => []) ++
    (match climate_score with | some s => [s] | none => []) ++
    (match pest_score with | some s => [s] | none => []) ++
    (match market_pref with | some s => [s] | none => []) ++
    (match soil_score with | some s => [s] | none => [])
  let final_score := if !scores.isEmpty then qMean scores else 0
  let item := Json.obj [("name", name), ("score", Json.num (pyRound final_score 4)),
    ("reasons", Json.arr (reasons1 ++ reasons2 ++ reasons3 ++ reasons4 ++ reasons5)),
    ("tradeoffs", Json.arr tradeoffs),
    ("meta", Json.obj (meta1 ++ meta2 ++ meta3 ++ meta4 ++ meta5)),
    ("sources", Json.arr sources)]
  .ok (final_score, item)

def itemScoreKey (j : Json) : ℚ :=
  match (j.lookup "score").getD (Json.num 0) with
  | .num q => q
  | _ => 0

def scoreGe (a b : Json) : Prop := qLeB (itemScoreKey b) (itemScoreKey a) = true

instance : DecidableRel scoreGe := fun a b => by
  unfold scoreGe; infer_instance

/-- variety_selection.handle. -/
def handle (intent : ActIntent) (facts : Json) : PyM Json :=
  if !facts.truthy ∨ !facts.isObj then
    .ok (Json.obj [("action", Json.str "require_more_info"), ("items", Json.arr []),
      ("confidence", Json.num 0), ("notes", Json.str "No facts provided"),
      ("missing", Json.arr [Json.str "variety_lookup", Json.str "calendar_lookup"])])
  else do
    let variety_out0 := facts.get "variety_lookup"
    let calendar_out := pyOr (facts.get "calendar_lookup") (facts.get "calendar")
    let weather_out := pyOr (facts.get "weather_outlook") (facts.get "weather")
    let soil_out := facts.get "soil"
    let rag_out := pyOr (pyOr (facts.get "rag_search") (facts.get "rag")) (facts.get "extension_notes")
    let variety_out ←
      if !variety_out0.truthy ∧ calendar_out.truthy then
        (create_varieties_from_calendar calendar_out).map Json.arr
      else pure variety_out0
    let missing := (if !variety_out.truthy then [Json.str "variety_lookup"] else []) ++
      (if !calendar_out.truthy then [Json.str "calendar_lookup"] else [])
    if !missing.isEmpty then
      .ok (Json.obj [("action", Json.str "require_more_info"), ("items", Json.arr []),
        ("confidence", Json.num 0), ("notes", Json.str "Missing required tool outputs"),
        ("missing", Json.arr missing)])
    else
      let varieties : Json :=
        if variety_out.isObj then
          let vs := pyOr (pyOr (variety_out.get "varieties") (variety_out.get "data"))
            (variety_out.get "items")
          if vs = Json.null then
            if variety_out.fields.all (fun kv => kv.2.isObj ∧ (kv.2.hasKey "name" ∨ kv.2.hasKey "id")) then
              Json.arr (variety_out.fields.map (·.2))
            else Json.null
          else vs
        else if variety_out.isArr then variety_out
        else Json.null
      if !varieties.truthy then
        .ok (Json.obj [("action", Json.str "require_more_info"), ("items", Json.arr []),
          ("confidence", Json.num 0),
          ("notes", Json.str "No varieties present in variety_lookup"),
          ("missing", Json.arr [])])
      else do
        let typical_maturity := typicalMaturityOf calendar_out
        let climate_signal ←
          if weather_out.truthy then
            let weather_data :=
              if weather_out.isObj ∧ weather_out.hasKey "data" then weather_out.get "data"
              else weather_out
            compute_climate_signal weather_data
          else pure none
        let vs ← pyIterE varieties
        let scored := vs.foldl (fun (acc : List (ℚ × Json)) v =>
          match varietyItem rag_out soil_out typical_maturity climate_signal v with
          | .ok si => acc ++ [si]
          | .error _ => acc) []
        let per_item_scores := scored.map (·.1)
        let items := scored.map (·.2)
        let items_sorted := List.insertionSort scoreGe items
        let top_n : Nat := 3
        let top_items := items_sorted.take top_n
        let handler_confidence_signal : Json :=
          if !per_item_scores.isEmpty then Json.num (qMean per_item_scores) else Json.null
        .ok (Json.obj [("action", Json.str "variety_ranked_list"),
          ("items", Json.arr top_items),
          ("handler_confidence", handler_confidence_signal),
          ("confidence", Json.null),
          ("notes", Json.str "Variety selection based on maturity, climate, pest resistance, and market preferences.")])

end VarietySelection

/-! ## rules/irrigation_decision.py -/

namespace IrrigationDecision

def RAIN_THRESHOLD_MM : ℚ := 10

def SOIL_MOISTURE_DEFAULT_THRESHOLD : ℚ := 30

/-- safe_get(dict_like, *keys): falsy or non-dict input yields the
default. -/
def safe_get (d : Json) (keys : List String) (default : Json := Json.null) : Json :=
  if !d.truthy ∨ !d.isObj then default
  else
    match keys.find? (fun k => d.hasKey k && !((d.get k) == Json.null)) with
    | some k => d.get k
    | none => default

/-- _sum_forecast_rain_mm over the next 48 hours: hourly entries are
summed over the first 48, daily entries over the first ceil(48/24) = 2
days; unparseable rain values are skipped. -/
def sum_forecast_rain_mm (weather : Json) (hours : Nat := 48) : Option ℚ :=
  if !weather.truthy ∨ !weather.isObj then none
  else
    let forecast := pyOr (pyOr (weather.get "forecast") (weather.get "daily")) (weather.get "data")
    if !forecast.isArr ∨ forecast.elems.isEmpty then none
    else
      let first := forecast.elems.getD 0 Json.null
      let rainOf : Json → Option ℚ := fun entry =>
        let r := safe_get entry ["rain_mm", "precip_mm", "rain", "precip"]
        if r = Json.null then none else pyFloat r
      if first.isObj ∧ (first.hasKey "hour" ∨ first.hasKey "time" ∨ first.hasKey "datetime") then
        some (qSum ((forecast.elems.take hours).filterMap rainOf))
      else
        let days := (hours + 23) / 24
        some (qSum ((forecast.elems.take days).filterMap rainOf))

/-- _extract_soil_moisture: first parseable moisture field; a value in
0..1 is read as a fraction and scaled to percent. -/
def extract_soil_moisture (soil : Json) : Option ℚ :=
  if !soil.truthy ∨ !soil.isObj then none
  else
    ["soil_moisture_pct", "soil_moisture", "volumetric_water_content", "vwc",
     "moisture_pct"].findSome? (fun k =>
      if soil.hasKey k ∧ !(soil.get k == Json.null) then
        match pyFloat (soil.get k) with
        | some val => if qLeB 0 val ∧ qLeB val 1 then some (qMul val 100) else some val
        | none => none
      else none)

/-- _determine_stage_threshold: calendar-provided thresholds if present,
else the 30 percent default (the global stage-adjustment table is empty
in the source); the lookup sits in a try, so any raise falls through to
the default. -/
def determine_stage_threshold (calendar : Json) (crop_stage : Json) : ℚ :=
  let fromCalendar : PyM (Option ℚ) := do
    let s1 ← calendar.getE "stage_moisture_thresholds"
    let s2 ← calendar.getE "moisture_thresholds"
    let stage_thresholds := pyOr s1 s2
    if stage_thresholds.truthy ∧ stage_thresholds.isObj ∧ crop_stage.truthy then do
      let v1 := match crop_stage with
        | .str s => (stage_thresholds.lookup s).getD Json.null
        | _ => Json.null
      let v2 ←
        if !v1.truthy then
          match crop_stage with
          | .str s => pure ((stage_thresholds.lookup (pyLower s)).getD Json.null)
          | _ => raiseAttrError "object has no attribute lower"
        else pure v1
      let val := pyOr v1 v2
      if val ≠ Json.null then
        match pyFloat val with
        | some q => pure (some q)
        | none => raiseTypeError "float conversion failed"
      else pure none
    else pure none
  match fromCalendar with
  | .ok (some q) => q
  | _ => SOIL_MOISTURE_DEFAULT_THRESHOLD

/-- _build_decision_item (the recommendation parameter is unused in the
source: every irrigation item is named irrigation_decision). -/
def build_decision_item (reasons tradeoffs : List Json) (meta : Json) (sources : List Json)
    (score : Json) : Json :=
  Json.obj [("name", Json.str "irrigation_decision"), ("score", score),
    ("reasons", Json.arr reasons), ("tradeoffs", Json.arr tradeoffs), ("meta", meta),
    ("sources", Json.arr sources)]

/-- irrigation_decision.handle. -/
def handle (intent : ActIntent) (facts : Json) : PyM Json :=
  if !facts.truthy ∨ !facts.isObj then
    .ok (Json.obj [("action", Json.str "require_more_info"), ("items", Json.arr []),
      ("confidence", Json.num 0), ("notes", Json.str "No facts provided"),
      ("missing", Json.arr [Json.str "weather_outlook", Json.str "calendar_lookup"])])
  else
    let weather := facts.get "weather_outlook"
    let calendar := facts.get "calendar_lookup"
    let soil := pyOr (pyOr (facts.get "soil") (facts.get "soil_sample")) (facts.get "soil_moisture")
    let missing := (if !weather.truthy then [Json.str "weather_outlook"] else []) ++
      (if !calendar.truthy then [Json.str "calendar_lookup"] else [])
    if !missing.isEmpty then
      .ok (Json.obj [("action", Json.str "require_more_info"), ("items", Json.arr []),
        ("confidence", Json.num 0), ("notes", Json.str "Missing required tool outputs"),
        ("missing", Json.arr missing)])
    else do
      let rain_48 := sum_forecast_rain_mm weather 48
      let sources : List Json :=
        match merge_provenance Json.null facts with
        | .ok merged => merged.take 3
        | .error _ =>
          if weather.isObj then
            let p := pyOr (weather.get "provider") (weather.get "source")
            if p.truthy then
              [Json.obj [("source_id", p), ("source_type", Json.str "weather"),
                ("tool", Json.str "weather_outlook")]]
            else []
          else []
      let (meta0, reasons0) : List (String × Json) × List Json :=
        match rain_48 with
        | some r => ([("forecast_rain_48h_mm", Json.num r)],
          [Json.str ("forecast_rain_48h=" ++ fmtQ r ++ "mm")])
        | none => ([], [])
      if rain_48.isSome ∧ qLeB RAIN_THRESHOLD_MM (rain_48.getD 0) then
        -- heavy rain expected: wait_for_rain; the helper call replaces
        -- the initial 0.9 with its neutral fallback of 0.5 (no canonical
        -- signal, empty facts default)
        let notes := "Forecasted rain in next 48 hours >= " ++ fmtQ RAIN_THRESHOLD_MM ++
          " mm; recommend waiting for rain."
        let confidence := compute_confidence
          (Json.obj [("forecast_rain_48h", Json.num (rain_48.getD 0))]) Json.null []
        let item := build_decision_item reasons0 [] (Json.obj meta0) sources
          (Json.num (pyRound confidence 4))
        .ok (Json.obj [("action", Json.str "irrigation_now_or_wait"),
          ("items", Json.arr [item]), ("confidence", Json.num (pyRound confidence 4)),
          ("notes", Json.str notes)])
      else do
        let soil_moisture_pct := extract_soil_moisture soil
        let meta1 := meta0 ++ (match soil_moisture_pct with
          | some p => [("soil_moisture_pct", Json.num p)]
          | none => [])
        let crop_stage0 := pyOr (actAttr intent "crop_stage") (actAttr intent "growth_stage")
        let crop_stage ←
          if !crop_stage0.truthy then do
            let c1 ← calendar.getE "current_stage"
            let c2 ← calendar.getE "crop_stage"
            let c3 ← calendar.getE "stage"
            pure (pyOr (pyOr c1 c2) c3)
          else pure crop_stage0
        let meta2 := meta1 ++ (if crop_stage.truthy then [("crop_stage", crop_stage)] else [])
        let stage_threshold := determine_stage_threshold calendar crop_stage
        match soil_moisture_pct with
        | some pct =>
          if qLtB pct stage_threshold then
            let reasons := reasons0 ++ [Json.str ("soil_moisture_pct=" ++ fmtQ pct ++
              "% < threshold(" ++ fmtQ stage_threshold ++ "%)")]
            let notes := "Soil moisture below threshold (" ++ fmtQ stage_threshold ++
              "%). Recommend irrigation now."
            -- the heuristic 0.6..0.95 mapping is computed and then
            -- overwritten by the direct helper call of line 322
            let conf := compute_confidence
              (Json.obj [("soil_moisture_signal", Json.num pct)]) facts
              ["weather_outlook", "calendar_lookup"]
            let item := build_decision_item reasons [] (Json.obj meta2) sources
              (Json.num (pyRound conf 4))
            .ok (Json.obj [("action", Json.str "irrigation_now_or_wait"),
              ("items", Json.arr [item]), ("confidence", Json.num (pyRound conf 4)),
              ("notes", Json.str notes)])
          else
            let reasons := reasons0 ++ [Json.str ("soil_moisture_pct=" ++ fmtQ pct ++
              "% >= threshold(" ++ fmtQ stage_threshold ++ "%)")]
            let notes := "Soil moisture appears sufficient; recommend waiting."
            let conf := compute_confidence
              (Json.obj [("soil_moisture_signal", Json.num pct)]) facts
              ["weather_outlook", "calendar_lookup"]
            let item := build_decision_item reasons [] (Json.obj meta2) sources
              (Json.num (pyRound conf 4))
            .ok (Json.obj [("action", Json.str "irrigation_now_or_wait"),
              ("items", Json.arr [item]), ("confidence", Json.num (pyRound conf 4)),
              ("notes", Json.str notes)])
        | none =>
          let critical_stages : Json :=
            match (do
              let c1 ← calendar.getE "critical_stages"
              let c2 ← calendar.getE "sensitive_stages"
              pure (pyOr c1 c2) : PyM Json) with
            | .ok v => v
            | .error _ => Json.null
          let matched : Option String :=
            if crop_stage.truthy ∧ critical_stages.truthy ∧ critical_stages.isObj then
              (critical_stages.fields.find? (fun kv =>
                pyLower kv.1 == pyLower (pyStr crop_stage) ||
                strIn (pyLower kv.1) (pyLower (pyStr crop_stage)))).map (·.1)
            else none
          match matched with
          | some _ =>
            if rain_48.isNone ∨ qLtB (rain_48.getD 0) RAIN_THRESHOLD_MM then
              let reasons := reasons0 ++ [Json.str ("crop_stage " ++ pyStr crop_stage ++
                " is critical and forecast rain insufficient (" ++
                (match rain_48 with | some r => fmtQ r | none => "None") ++ " mm)")]
              let notes := "Critical crop stage with insufficient forecast rain; recommend irrigation."
              let conf := compute_confidence
                (Json.obj [("crop_stage_critical", Json.num 1),
                  ("forecast_rain_48h", Json.num (rain_48.getD 0))]) facts
                ["weather_outlook", "calendar_lookup"]
              let item := build_decision_item reasons [] (Json.obj meta2) sources
                (Json.num (pyRound conf 4))
              .ok (Json.obj [("action", Json.str "irrigation_now_or_wait"),
                ("items", Json.arr [item]), ("confidence", Json.num (pyRound conf 4)),
                ("notes", Json.str notes)])
            else
              let reasons := reasons0 ++ [Json.str ("crop_stage " ++ pyStr crop_stage ++
                " is critical but forecast rain " ++
                (match rain_48 with | some r => fmtQ r | none => "None") ++ " mm expected")]
              let notes := "Critical stage but sufficient rain forecasted; recommend waiting."
              let conf : ℚ := mkRat 8 10
              let item := build_decision_item reasons [] (Json.obj meta2) sources
                (Json.num (pyRound conf 4))
              .ok (Json.obj [("action", Json.str "irrigation_now_or_wait"),
                ("items", Json.arr [item]),
                ("handler_confidence", Json.num (pyRound conf 4)),
                ("confidence", Json.null), ("notes", Json.str notes)])
          | none =>
            let missing_fields :=
              (if soil = Json.null then [Json.str "soil or soil_moisture"] else []) ++
              (if !crop_stage.truthy then [Json.str "crop_stage (current_stage or days_after_sowing)"] else []) ++
              (if rain_48.isNone then [Json.str "forecast rainfall (weather_outlook.forecast)"] else [])
            .ok (Json.obj [("action", Json.str "require_more_info"), ("items", Json.arr []),
              ("confidence", Json.num 0),
              ("notes", Json.str "Insufficient data to make a safe irrigation decision. Provide soil moisture or crop stage and ensure forecast is present."),
              ("missing", Json.arr missing_fields)])

end IrrigationDecision

/-! ## models.py: DecisionResponseModel (the final validation/dump) -/

/-- Optional[List[str]] = None (no list default). -/
def fOptListStrN : FieldV
  | none => .ok .null
  | some .null => .ok .null
  | some v =>
    if v.isArr then
      if v.elems.all Json.isStr then .ok v else .error "list of str expected"
    else .error "list expected"

/-- Optional[Dict[str, Any]] = None. -/
def fOptDictN : FieldV
  | none => .ok .null
  | some .null => .ok .null
  | some v => if v.isObj then .ok v else .error "dict expected"

/-- Optional[List[Dict[str, Any]]] = None. -/
def fOptListDictN : FieldV
  | none => .ok .null
  | some .null => .ok .null
  | some v =>
    if v.isArr then
      if v.elems.all Json.isObj then .ok v else .error "list of dict expected"
    else .error "list expected"

/-- Optional[List[Dict[str, Any]]] = Field(default_factory=list). -/
def fOptListDictD : FieldV
  | none => .ok (Json.arr [])
  | some .null => .ok .null
  | some v =>
    if v.isArr then
      if v.elems.all Json.isObj then .ok v else .error "list of dict expected"
    else .error "list expected"

/-- List[SubModel] = Field(default_factory=list) (not Optional: null is
rejected). -/
def fListOfD (p : Json → Except String Json) : FieldV
  | none => .ok (Json.arr [])
  | some v =>
    if v.isArr then (v.elems.mapM p).map Json.arr
    else .error "list expected"

/-- Any (required). -/
def fReqAny : FieldV
  | none => .error "field required"
  | some v => .ok v

/-- datetime (required); the embedding keeps the ISO string produced by
the orchestrator. -/
def fReqDatetime : FieldV
  | none => .error "field required"
  | some (.str s) => .ok (.str s)
  | some _ => .error "datetime expected"

def parseEvidenceItem (j : Json) : Except String Json :=
  runModel [("type", fReqStr), ("value", fReqAny), ("source", fOptStr)] false j

def parseAuditStep (j : Json) : Except String Json :=
  runModel [("step", fReqStr), ("details", fOptStr)] false j

def parseDecisionItem (j : Json) : Except String Json :=
  runModel [("name", fReqStr), ("score", fOptFloat), ("reasons", fOptListStrN),
    ("tradeoffs", fOptListStrN), ("meta", fOptDictN), ("sources", fOptListDictN)] false j

def parseDecisionResult (j : Json) : Except String Json :=
  runModel [("action", fReqStr), ("items", fListOfD parseDecisionItem),
    ("confidence", fOptFloat), ("notes", fOptStr)] false j

def parseDecisionResponse (j : Json) : Except String Json :=
  runModel [("request_id", fOptStr), ("intent", fReqStr), ("decision_template", fReqStr),
    ("decision_timestamp", fReqDatetime),
    ("status", fun o => match o with
      | none => .ok (Json.str "complete")
      | some (.str s) =>
        if ["complete", "incomplete", "invalid_input", "handler_not_found"].contains s then
          .ok (Json.str s)
        else .error "invalid status"
      | some _ => .error "invalid status"),
    ("result", fOptModel parseDecisionResult),
    ("evidence", fOptListOfD parseEvidenceItem),
    ("provenance", fOptListDictD),
    ("audit_trace", fOptListOfD parseAuditStep),
    ("confidence", fOptFloat),
    ("missing", fOptListStrD),
    ("source_id", fOptStr), ("source_type", fOptStr)] false j

/-! ## orchestrator.py -/

/-- uuid.uuid4 and datetime.now are nondeterministic; the embedding
fixes them to constants (claims exclude the timestamp and trace id). -/
def trace_id_const : String := "00000000-0000-0000-0000-000000000000"

def decision_timestamp_const : String := "1970-01-01T00:00:00+00:00"

/-- INTENT_ROUTING required_tools per intent (the orchestrator itself
never consults this table; gating lives inside the handlers). -/
def INTENT_ROUTING_required_tools (intent : String) : Option (List String) :=
  if intent = "irrigation_decision" then some ["weather_outlook", "calendar_lookup"]
  else if intent = "variety_selection" then some ["variety_lookup", "calendar_lookup"]
  else if intent = "temperature_risk" then some ["weather_outlook", "calendar_lookup"]
  else if intent = "market_advice" then some ["prices_fetch"]
  else if intent = "credit_policy_match" then some ["policy_match"]
  else if intent = "pesticide_advice" then some ["pesticide_lookup"]
  else none

/-- HANDLER_MAP (credit_policy_match has no handler registered, so that
intent falls to handler_not_found). -/
def HANDLER_MAP (intent : String) : Option (ActIntent → Json → PyM Json) :=
  if intent = "irrigation_decision" then some IrrigationDecision.handle
  else if intent = "variety_selection" then some VarietySelection.handle
  else if intent = "temperature_risk" then some TemperatureRisk.handle
  else if intent = "market_advice" then some MarketAdvice.handle
  else if intent = "pesticide_advice" then some PesticideAdvice.handle
  else none

def jsonSet (j : Json) (k : String) (v : Json) : Json := Json.obj (assocSet j.fields k v)

def jsonSetdefault (j : Json) (k : String) (v : Json) : Json :=
  if j.hasKey k then j else jsonSet j k v

/-- _normalize_items: canonicalize each item to a dict with a numeric
score (rule handlers always hand over lists, so the iteration is over a
list). -/
def normalize_items (items : Json) : List Json :=
  let l := if items.truthy then items.elems else []
  l.map (fun it =>
    if it.isObj then
      let newScore : ℚ :=
        if !it.hasKey "score" ∧ it.hasKey "raw_score" then
          (pyFloat (it.get "raw_score")).getD 0
        else
          (pyFloat ((it.lookup "score").getD (Json.num 0))).getD 0
      jsonSet it "score" (Json.num newScore)
    else Json.obj [("value", it), ("score", Json.num 0)])

/-- The facts map the orchestrator builds: tool_calls outputs through
build_facts_from_toolcalls, then the explicit act.facts overlay (the
overlay wins on key conflicts). -/
def engineFacts (act : ActIntent) : Json :=
  let tool_outputs := act.tool_calls.map (fun tc =>
    (tc.1, if tc.2 = Json.null then Json.obj [] else tc.2))
  let facts_from_toolcalls := build_facts_from_toolcalls tool_outputs
  let explicit := if act.facts.isObj then act.facts.fields else []
  Json.obj (explicit.foldl (fun acc kv => assocSet acc kv.1 kv.2) facts_from_toolcalls.fields)

/-- The dispatched handler invocation (None when the intent has no
registered handler). -/
def dispatchOutcome (act : ActIntent) : Option (PyM Json) :=
  (HANDLER_MAP act.intent).map (fun h => h act (engineFacts act))

/-- The defensive catch-all of step 5: a raising handler (or a non-dict
handler result) is replaced by a zero-confidence result naming the
error. -/
def exceptionResult (e : PyExc) : Json :=
  Json.obj [("action", Json.null), ("items", Json.arr []),
    ("handler_confidence", Json.num 0), ("confidence", Json.num 0),
    ("notes", Json.str ("handler error: " ++ e.name ++ ": " ++ e.msg))]

def handlerResultOrError (outcome : PyM Json) : Json :=
  match outcome with
  | .ok r => if r.isObj then r else exceptionResult ⟨"ValueError", "handler must return a dict"⟩
  | .error e => exceptionResult e

/-- The invalid_input early return of process_act_intent. -/
def invalidInputResponse (raw_payload : Json) (trace_id : Json) : Json :=
  Json.obj [("request_id", (raw_payload.lookup "request_id").getD trace_id),
    ("intent", (raw_payload.lookup "intent").getD (Json.str "unknown")),
    ("decision_template", (raw_payload.lookup "decision_template").getD (Json.str "unknown")),
    ("decision_timestamp", Json.str decision_timestamp_const),
    ("status", Json.str "invalid_input"), ("result", Json.null),
    ("evidence", Json.arr []), ("provenance", Json.arr []), ("audit_trace", Json.arr []),
    ("confidence", Json.num 0), ("missing", Json.arr []),
    ("source_id", Json.null), ("source_type", Json.null),
    ("error", Json.str "invalid_act_intent"), ("details", Json.arr []),
    ("trace_id", trace_id)]

/-- The handler_not_found early return. -/
def handlerNotFoundResponse (act : ActIntent) (trace_id : Json) : Json :=
  Json.obj [("request_id", pyOr act.request_id trace_id),
    ("intent", Json.str act.intent),
    ("decision_template", Json.str act.decision_template),
    ("decision_timestamp", Json.str decision_timestamp_const),
    ("status", Json.str "handler_not_found"), ("result", Json.null),
    ("evidence", Json.arr []), ("provenance", Json.arr []), ("audit_trace", Json.arr []),
    ("confidence", Json.num 0), ("missing", Json.arr []),
    ("source_id", Json.null), ("source_type", Json.null),
    ("error", Json.str "unknown_intent"), ("trace_id", trace_id)]

/-- Canonical-key normalisation of the handler result (step 5 tail):
setdefault action/handler_confidence/confidence/notes, items through
_normalize_items. -/
def normalizedHandlerResult (outcome : PyM Json) : Json :=
  let handler_result := handlerResultOrError outcome
  let handler_result := jsonSetdefault handler_result "action" Json.null
  let handler_result := jsonSet handler_result "items"
    (Json.arr (normalize_items ((handler_result.lookup "items").getD (Json.arr []))))
  let handler_result := jsonSetdefault handler_result "handler_confidence" Json.null
  let handler_result := jsonSetdefault handler_result "confidence" Json.null
  jsonSetdefault handler_result "notes" (Json.str "")

/-- Step 7: handler_confidence wins when present, else the central
combiner over the handler result (called with facts None and no
required tools at this call site). -/
def finalHandlerConf (handler_result : Json) : ℚ :=
  if handler_result.get "handler_confidence" ≠ Json.null then
    (pyFloat (handler_result.get "handler_confidence")).getD 0
  else
    compute_confidence handler_result Json.null []

/-- Step 9: the final response envelope before validation. -/
def finalRespObj (act : ActIntent) (handler_result : Json) (overall_confidence : ℚ)
    (prioritized_prov : List Json) (trace_id : Json) : Json :=
  Json.obj [
    ("request_id", pyOr act.request_id trace_id),
    ("intent", Json.str act.intent),
    ("decision_template", Json.str act.decision_template),
    ("decision_timestamp", Json.str decision_timestamp_const),
    ("status", Json.str "complete"),
    ("result", Json.obj [("action", handler_result.get "action"),
      ("items", handler_result.get "items"),
      ("confidence", Json.num overall_confidence),
      ("notes", handler_result.get "notes")]),
    ("evidence", Json.arr []),
    ("provenance", Json.arr prioritized_prov),
    ("audit_trace", Json.arr []),
    ("confidence", Json.num overall_confidence),
    ("missing", Json.arr []),
    ("source_id", Json.null), ("source_type", Json.null),
    ("trace_id", trace_id)]

/-- Final validation against DecisionResponseModel: the validated dump,
or the raw envelope with a _validation_error marker. -/
def validateFinal (raw : Json) : Json :=
  match parseDecisionResponse raw with
  | .ok dumped => dumped
  | .error _ => jsonSet raw "_validation_error" (Json.str "DecisionResponseModel validation failed")

/-- Steps 5 to 9 of process_act_intent: normalise the handler result,
merge and prioritise provenance, compute the clamped handler confidence
(handler_confidence wins, else the combiner), aggregate overall
confidence by probabilistic OR over the single handler, assemble the
envelope and validate it against DecisionResponseModel (on validation
failure the raw envelope is returned with a _validation_error marker). -/
def finishResponse (act : ActIntent) (facts : Json) (outcome : PyM Json) (trace_id : Json) : Json :=
  let fact_prov := extract_provenance_from_facts facts
  let handler_result := normalizedHandlerResult outcome
  let handler_prov := pyOr (pyOr (handler_result.get "provenance") (handler_result.get "prov")) Json.null
  let merged_prov :=
    match merge_provenance handler_prov facts with
    | .ok l => l
    | .error _ => fact_prov
  let prioritized_prov := prioritize_provenance merged_prov
  let conf := qClamp01 (finalHandlerConf handler_result)
  let handler_result := jsonSet handler_result "confidence" (Json.num conf)
  let prod := qMul 1 (qSub 1 (qClamp01 conf))
  let overall_confidence := qSub 1 prod
  validateFinal (finalRespObj act handler_result overall_confidence prioritized_prov trace_id)

/-- process_act_intent.  Reading trace_id from a non-dict payload raises
before any validation, exactly as raw_payload.get does in the source. -/
def processActIntent (payload : Json) : PyM Json := do
  let t ← payload.getE "trace_id"
  let trace_id := pyOr t (Json.str trace_id_const)
  match parseActIntent payload with
  | .error _ => .ok (invalidInputResponse payload trace_id)
  | .ok act =>
    match dispatchOutcome act with
    | none => .ok (handlerNotFoundResponse act trace_id)
    | some outcome => .ok (finishResponse act (engineFacts act) outcome trace_id)

/-! Accessors used by the claims. -/

def respStatus (r : Json) : Json := r.get "status"

def respResult (r : Json) : Json := r.get "result"

def respResultAction (r : Json) : Json := (r.get "result").get "action"

def respResultConfidence (r : Json) : Json := (r.get "result").get "confidence"

def respResultItems (r : Json) : List Json := ((r.get "result").get "items").elems

def respConfidence (r : Json) : Json := r.get "confidence"

def respMissing (r : Json) : Json := r.get "missing"

def itemScore (it : Json) : Json := it.get "score"

def itemName (it : Json) : Json := it.get "name"

def itemMetaPhiDays (it : Json) : Json := (it.get "meta").get "phi_days"

/-! Association-list views used to reason about dict-shaped values. -/

/-- First binding of a key in an association list (the list-level view
of Json.lookup). -/
def listLookup : List (String × Json) → String → Option Json
  | [], _ => none
  | (k', v) :: rest, k => if k' = k then some v else listLookup rest k

/-- First validator bound to a key in a declared-field list. -/
def fvLookup : List (String × FieldV) → String → Option FieldV
  | [], _ => none
  | (k', f) :: rest, k => if k' = k then some f else fvLookup rest k

/-- The dedup key of the final loop of merge_provenance. -/
def provTripleKey (entry : Json) : Json × Json × Json :=
  (pyOr (entry.get "source_id") (Json.str ""),
   pyOr (entry.get "source_type") (Json.str ""),
   pyOr (entry.get "tool") (Json.str ""))

/-! Concrete scenarios used by the claims. -/

/-- A minimal valid act-intent payload with an empty facts map. -/
def gatePayload (intent : String) : Json :=
  Json.obj [("intent", Json.str intent), ("decision_template", Json.str "t"),
    ("tool_calls", Json.arr []), ("facts", Json.obj [])]

/-- The routed intents that have a registered handler, with the missing
list their handler reports when the facts map is empty. -/
def routedGateCases : List (String × List String) :=
  [("irrigation_decision", ["weather_outlook", "calendar_lookup"]),
   ("variety_selection", ["variety_lookup", "calendar_lookup"]),
   ("temperature_risk", ["weather_outlook", "calendar_lookup"]),
   ("market_advice", ["prices_fetch"]),
   ("pesticide_advice", ["pesticide_lookup"])]

/-- variety_selection payload whose facts lack variety_lookup but carry
calendar crop data (the calendar-fallback path). -/
def c1Payload : Json := Json.obj [
  ("intent", Json.str "variety_selection"),
  ("decision_template", Json.str "variety_ranked_list"),
  ("tool_calls", Json.arr []),
  ("facts", Json.obj [
    ("calendar_lookup", Json.obj [("crops", Json.arr [Json.obj [("crop_name", Json.str "rice")]])])])]

/-- market_advice intent with no extra attributes. -/
def marketIntent : ActIntent :=
  ⟨"market_advice", "sell_or_hold_decision", [], Json.arr [], Json.obj [], Json.null, Json.obj []⟩

/-- A three-point daily price history under prices_fetch. -/
def marketFacts (a b c : ℚ) : Json := Json.obj [
  ("prices_fetch", Json.obj [("price_history", Json.arr [
    Json.obj [("date", Json.str "2025-01-01"), ("price", Json.num a)],
    Json.obj [("date", Json.str "2025-01-02"), ("price", Json.num b)],
    Json.obj [("date", Json.str "2025-01-03"), ("price", Json.num c)]])])]

/-- variety_selection payload whose single variety carries a
market_preference_score of 5 (and no other score signals). -/
def c3Payload : Json := Json.obj [
  ("intent", Json.str "variety_selection"),
  ("decision_template", Json.str "variety_ranked_list"),
  ("tool_calls", Json.arr []),
  ("facts", Json.obj [
    ("variety_lookup", Json.obj [("varieties", Json.arr [
      Json.obj [("name", Json.str "v1"), ("market_preference_score", Json.num 5)]])]),
    ("calendar_lookup", Json.obj [("region", Json.str "x")])])]

/-- Facts exercising the unclamped per-tool fallback of
compute_confidence. -/
def c4Facts : Json := Json.obj [("t", Json.obj [("confidence", Json.num 5)])]

/-- temperature_risk payload with two weather_outlook tool calls whose
outputs disagree. -/
def c6Payload : Json := Json.obj [
  ("intent", Json.str "temperature_risk"),
  ("decision_template", Json.str "frost_or_heat_risk_assessment"),
  ("tool_calls", Json.arr [
    Json.obj [("tool", Json.str "weather_outlook"), ("output", Json.obj [("lat", Json.num 1)])],
    Json.obj [("tool", Json.str "weather_outlook"), ("output", Json.obj [("lat", Json.num 2)])]])]

/-- pesticide_advice intent with no extra attributes. -/
def c7Intent : ActIntent :=
  ⟨"pesticide_advice", "pesticide_safe_recommendation", [], Json.arr [], Json.obj [], Json.null, Json.obj []⟩

/-- Pesticide facts: product B violates the 20-day PHI window, product C
has no PHI declared. -/
def c7Facts : Json := Json.obj [
  ("pesticide_lookup", Json.obj [("products", Json.arr [
    Json.obj [("name", Json.str "A"), ("phi_days", Json.num 7)],
    Json.obj [("name", Json.str "B"), ("phi_days", Json.num 30)],
    Json.obj [("name", Json.str "C")]])]),
  ("calendar_lookup", Json.obj [("days_to_harvest", Json.num 20)])]

/-- The pesticide handler result on the c7 scenario. -/
def c7Result : Json :=
  match PesticideAdvice.handle c7Intent c7Facts with
  | .ok r => r
  | .error _ => Json.null

/-- Facts with a news_blog-typed source and an untyped source. -/
def c8Facts : Json := Json.obj [
  ("rag_search", Json.obj [("source_id", Json.str "blogA"), ("source_type", Json.str "news_blog")]),
  ("storage_find", Json.obj [("source_id", Json.str "srcB")])]

/-- Facts with two sources sharing (source_id, source_type) but coming
from different tools. -/
def c8DupFacts : Json := Json.obj [
  ("rag_search", Json.obj [("source_id", Json.str "X"), ("source_type", Json.str "government")]),
  ("storage_find", Json.obj [("source_id", Json.str "X"), ("source_type", Json.str "government")])]

/-- The engine response on the c3 payload. -/
def c3Resp : Json :=
  match processActIntent c3Payload with
  | .ok r => r
  | .error _ => Json.null

/-- The merged provenance of the c8 facts. -/
def c8Merged : List Json :=
  match merge_provenance Json.null c8Facts with
  | .ok l => l
  | .error _ => []

/-- variety_selection payload whose weather_outlook fact is a bare
number, which makes the handler raise while reading it. -/
def c9Payload : Json := Json.obj [
  ("intent", Json.str "variety_selection"),
  ("decision_template", Json.str "variety_ranked_list"),
  ("tool_calls", Json.arr []),
  ("facts", Json.obj [
    ("variety_lookup", Json.obj [("varieties", Json.arr [Json.obj [("name", Json.str "x")]])]),
    ("calendar_lookup", Json.obj [("typical_maturity_days", Json.num 100)]),
    ("weather_outlook", Json.num 5)])]

/-- The validated act of the c9 payload. -/
def c9Act : ActIntent :=
  match parseActIntent c9Payload with
  | .ok act => act
  | .error _ => marketIntent

/-- temperature_risk payload with a weather_outlook tool call whose
output puts a bare number where the schema requires a list. -/
def c10Payload : Json := Json.obj [
  ("intent", Json.str "temperature_risk"),
  ("decision_template", Json.str "frost_or_heat_risk_assessment"),
  ("tool_calls", Json.arr [
    Json.obj [("tool", Json.str "weather_outlook"), ("output", Json.obj [("tmin_c", Json.num 5)])]])]

end FasalSetu

namespace FasalSetu

/-! # Theorems

First the bridge lemmas identifying the kernel-friendly wrappers with
the library operations on ℚ, then structural lemmas about the embedded
data model, then the claims. -/

theorem qAdd_eq (a b : ℚ) : qAdd a b = a + b := by
  have ha : (a.den : ℚ) ≠ 0 := by exact_mod_cast a.den_nz
  have hb : (b.den : ℚ) ≠ 0 := by exact_mod_cast b.den_nz
  unfold qAdd
  rw [Rat.mkRat_eq_div]
  push_cast
  conv_rhs => rw [← Rat.num_div_den a, ← Rat.num_div_den b]
  rw [div_add_div _ _ ha hb]
  ring_nf

theorem qNeg_eq (a : ℚ) : qNeg a = -a := by
  unfold qNeg
  rw [Rat.mkRat_eq_div]
  push_cast
  rw [neg_div, Rat.num_div_den]

theorem qSub_eq (a b : ℚ) : qSub a b = a - b := by
  rw [qSub, qAdd_eq, qNeg_eq, sub_eq_add_neg]

theorem qMul_eq (a b : ℚ) : qMul a b = a * b := by
  have ha : (a.den : ℚ) ≠ 0 := by exact_mod_cast a.den_nz
  have hb : (b.den : ℚ) ≠ 0 := by exact_mod_cast b.den_nz
  unfold qMul
  rw [Rat.mkRat_eq_div]
  push_cast
  conv_rhs => rw [← Rat.num_div_den a, ← Rat.num_div_den b]
  rw [div_mul_div_comm]

theorem qDiv_eq (a b : ℚ) : qDiv a b = a / b := by
  have ha : (a.den : ℚ) ≠ 0 := by exact_mod_cast a.den_nz
  have hb : (b.den : ℚ) ≠ 0 := by exact_mod_cast b.den_nz
  unfold qDiv
  rcases eq_or_ne b.num 0 with h0 | h0
  · have hbz : b = 0 := by
      rw [← Rat.num_div_den b, h0]; simp
    subst hbz
    simp
  · have hnum : ((b.num : ℚ)) ≠ 0 := by exact_mod_cast h0
    have hb0 : b ≠ 0 := by
      intro h; rw [h] at h0; exact h0 rfl
    rw [Rat.mkRat_eq_div]
    push_cast [Int.cast_natAbs]
    conv_rhs => rw [← Rat.num_div_den a, ← Rat.num_div_den b]
    rcases lt_or_gt_of_ne h0 with hlt | hgt
    · rw [Int.sign_eq_neg_one_of_neg hlt, abs_of_neg (show ((b.num : ℚ)) < 0 by exact_mod_cast hlt)]
      push_cast
      field_simp
    · rw [Int.sign_eq_one_of_pos hgt, abs_of_pos (show (0:ℚ) < (b.num : ℚ) by exact_mod_cast hgt)]
      push_cast
      field_simp

theorem qLeB_iff (a b : ℚ) : qLeB a b = true ↔ a ≤ b := by
  unfold qLeB
  rw [decide_eq_true_iff]
  exact (Rat.le_def).symm

theorem qLtB_iff (a b : ℚ) : qLtB a b = true ↔ a < b := by
  unfold qLtB
  rw [decide_eq_true_iff]
  exact (Rat.lt_def).symm

theorem qMin_eq (a b : ℚ) : qMin a b = min a b := by
  unfold qMin
  by_cases h : qLeB a b = true
  · rw [if_pos h, min_eq_left ((qLeB_iff a b).mp h)]
  · rw [if_neg h, min_eq_right]
    have := (not_iff_not.mpr (qLeB_iff a b)).mp h
    exact le_of_not_le this

theorem qMax_eq (a b : ℚ) : qMax a b = max a b := by
  unfold qMax
  by_cases h : qLeB a b = true
  · rw [if_pos h, max_eq_right ((qLeB_iff a b).mp h)]
  · rw [if_neg h, max_eq_left]
    have := (not_iff_not.mpr (qLeB_iff a b)).mp h
    exact le_of_not_le this

theorem qClamp01_bounds (x : ℚ) : 0 ≤ qClamp01 x ∧ qClamp01 x ≤ 1 := by
  unfold qClamp01
  rw [qMax_eq, qMin_eq]
  constructor
  · exact le_max_left 0 _
  · rcases le_total 1 x with h | h
    · simp [min_eq_left h]
    · simp [min_eq_right h, h]

theorem qClamp01_of_mem (x : ℚ) (h0 : 0 ≤ x) (h1 : x ≤ 1) : qClamp01 x = x := by
  unfold qClamp01
  rw [qMax_eq, qMin_eq, min_eq_right h1, max_eq_right h0]

theorem qClamp01_idem (x : ℚ) : qClamp01 (qClamp01 x) = qClamp01 x :=
  qClamp01_of_mem _ (qClamp01_bounds x).1 (qClamp01_bounds x).2

theorem qSum_eq (xs : List ℚ) : qSum xs = xs.sum := by
  induction xs with
  | nil => rfl
  | cons x xs ih => rw [qSum, qAdd_eq, ih, List.sum_cons]

theorem qMean_eq (xs : List ℚ) : qMean xs = xs.sum / xs.length := by
  unfold qMean
  rw [qDiv_eq, qSum_eq]

/-- Mean of a nonempty list of values in the unit interval is in the
unit interval. -/
theorem qMean_mem (xs : List ℚ) (hne : xs ≠ [])
    (h : ∀ x ∈ xs, 0 ≤ x ∧ x ≤ 1) : 0 ≤ qMean xs ∧ qMean xs ≤ 1 := by
  rw [qMean_eq]
  have hlen : 0 < (xs.length : ℚ) := by
    have : 0 < xs.length := List.length_pos.mpr hne
    exact_mod_cast this
  constructor
  · apply div_nonneg _ (le_of_lt hlen)
    exact List.sum_nonneg (fun x hx => (h x hx).1)
  · rw [div_le_one hlen]
    have := List.sum_le_card_nsmul xs 1 (fun x hx => (h x hx).2)
    simpa using this

/-! Structural lemmas about the Json views. -/

theorem Json.elems_arr (l : List Json) : (Json.arr l).elems = l := by
  induction l with
  | nil => rfl
  | cons x xs ih => rw [Json.arr, Json.elems, ih]

theorem Json.fields_obj (l : List (String × Json)) : (Json.obj l).fields = l := by
  induction l with
  | nil => rfl
  | cons kv rest ih =>
    rcases kv with ⟨k, v⟩
    rw [Json.obj, Json.fields, ih]

theorem Json.lookup_obj (l : List (String × Json)) (k : String) :
    (Json.obj l).lookup k = listLookup l k := by
  induction l with
  | nil => rfl
  | cons kv rest ih =>
    rcases kv with ⟨k1, v⟩
    rw [Json.obj, Json.lookup, listLookup, ih]

theorem listLookup_append_left {l1 : List (String × Json)} {k : String} {v : Json}
    (h : listLookup l1 k = some v) (l2 : List (String × Json)) :
    listLookup (l1 ++ l2) k = some v := by
  induction l1 with
  | nil => cases h
  | cons kv rest ih =>
    rcases kv with ⟨k1, v1⟩
    simp only [listLookup] at h
    rw [List.cons_append]
    simp only [listLookup]
    by_cases hk : k1 = k
    · rwa [if_pos hk] at h ⊢
    · rw [if_neg hk] at h ⊢
      exact ih h

theorem listLookup_assocSet_self (m : List (String × Json)) (k : String) (v : Json) :
    listLookup (assocSet m k v) k = some v := by
  induction m with
  | nil => simp [assocSet, listLookup]
  | cons kv rest ih =>
    rcases kv with ⟨k1, v1⟩
    simp only [assocSet]
    by_cases hk : k1 = k
    · rw [if_pos hk]
      simp only [listLookup]
      rw [if_pos hk]
    · rw [if_neg hk]
      simp only [listLookup]
      rw [if_neg hk]
      exact ih

theorem listLookup_assocSet_ne (m : List (String × Json)) {k1 : String} (v : Json) {k : String}
    (h : k1 ≠ k) : listLookup (assocSet m k1 v) k = listLookup m k := by
  induction m with
  | nil => simp [assocSet, listLookup, if_neg h]
  | cons kv rest ih =>
    rcases kv with ⟨k2, v2⟩
    simp only [assocSet]
    by_cases hk : k2 = k1
    · subst hk
      rw [if_pos rfl]
      simp only [listLookup]
      rw [if_neg h, if_neg h]
    · rw [if_neg hk]
      simp only [listLookup]
      by_cases hk2 : k2 = k
      · rw [if_pos hk2, if_pos hk2]
      · rw [if_neg hk2, if_neg hk2]
        exact ih

/-- Folding dict assignments whose keys avoid t leaves the binding of t
unchanged. -/
theorem foldl_assocSet_not_mem (t : String) :
    ∀ (l : List (String × Json)) (m : List (String × Json)), t ∉ l.map Prod.fst →
      listLookup (l.foldl (fun acc kv => assocSet acc kv.1 kv.2) m) t = listLookup m t := by
  intro l
  induction l with
  | nil => intro m _; rfl
  | cons kv rest ih =>
    intro m h
    rcases kv with ⟨k1, v1⟩
    rw [List.map_cons, List.mem_cons] at h
    push_neg at h
    rw [List.foldl_cons]
    rw [ih _ h.2]
    exact listLookup_assocSet_ne m v1 (fun he => h.1 he.symm)

theorem pyOr_truthy {a : Json} (b : Json) (h : a.truthy = true) : pyOr a b = a := by
  unfold pyOr; rw [if_pos h]

theorem pyOr_falsy {a : Json} (b : Json) (h : a.truthy = false) : pyOr a b = b := by
  unfold pyOr; rw [h]; rfl

/-! Inversion lemmas for the embedded pydantic validation. -/

theorem mapM_mem_ok {α β ε : Type} (f : α → Except ε β) :
    ∀ (l : List α) (ys : List β), l.mapM f = .ok ys → ∀ x ∈ l, ∃ y, f x = .ok y := by
  intro l
  induction l with
  | nil => intro ys _ x hx; cases hx
  | cons a rest ih =>
    intro ys h x hx
    rw [List.mapM_cons] at h
    cases hfa : f a with
    | error e =>
      rw [hfa] at h
      simp [Bind.bind, Except.bind] at h
    | ok y =>
      rw [hfa] at h
      cases hrest : rest.mapM f with
      | error e =>
        rw [hrest] at h
        simp [Bind.bind, Except.bind] at h
      | ok ys2 =>
        rcases List.mem_cons.mp hx with rfl | hx2
        · exact ⟨y, hfa⟩
        · exact ih ys2 hrest x hx2

theorem mapM_fields_lookup :
    ∀ (fields : List (String × FieldV)) (src : Json) (vals : List (String × Json))
      (k : String) (fv : FieldV),
      List.mapM (fun kf => (kf.2 (src.lookup kf.1)).map (fun v => (kf.1, v))) fields = .ok vals →
      fvLookup fields k = some fv →
      ∃ v, fv (src.lookup k) = .ok v ∧ listLookup vals k = some v := by
  intro fields
  induction fields with
  | nil => intro src vals k fv _ hf; cases hf
  | cons kf rest ih =>
    intro src vals k fv hm hf
    rcases kf with ⟨k1, f1⟩
    rw [List.mapM_cons] at hm
    dsimp only at hm
    cases hf1 : f1 (src.lookup k1) with
    | error e =>
      rw [hf1] at hm
      simp [Bind.bind, Except.bind, Except.map] at hm
    | ok v1 =>
      rw [hf1] at hm
      cases hrest : List.mapM (fun kf => (kf.2 (src.lookup kf.1)).map (fun v => (kf.1, v))) rest with
      | error e =>
        rw [hrest] at hm
        simp [Bind.bind, Except.bind, Except.map] at hm
      | ok vs =>
        rw [hrest] at hm
        simp only [Bind.bind, Except.bind, Except.map, pure, Except.pure] at hm
        injection hm with hm
        simp only [fvLookup] at hf
        by_cases hk : k1 = k
        · rw [if_pos hk] at hf
          cases hf
          subst hk
          refine ⟨v1, hf1, ?_⟩
          rw [← hm]
          simp [listLookup]
        · rw [if_neg hk] at hf
          obtain ⟨v, hv, hl⟩ := ih src vs k fv hrest hf
          refine ⟨v, hv, ?_⟩
          rw [← hm]
          simp only [listLookup]
          rw [if_neg hk]
          exact hl

theorem runModel_lookup {fields : List (String × FieldV)} {ea : Bool} {src out : Json}
    {k : String} {fv : FieldV}
    (h : runModel fields ea src = .ok out) (hf : fvLookup fields k = some fv) :
    ∃ v, fv (src.lookup k) = .ok v ∧ out.lookup k = some v := by
  unfold runModel at h
  by_cases hobj : !src.isObj
  · rw [if_pos hobj] at h; cases h
  · rw [if_neg hobj] at h
    cases hm : List.mapM (fun kf => (kf.2 (src.lookup kf.1)).map (fun v => (kf.1, v))) fields with
    | error e =>
      rw [hm] at h
      simp [Bind.bind, Except.bind] at h
    | ok vals =>
      rw [hm] at h
      simp only [Bind.bind, Except.bind, pure, Except.pure, Except.ok.injEq] at h
      obtain ⟨v, hv, hl⟩ := mapM_fields_lookup fields src vals k fv hm hf
      refine ⟨v, hv, ?_⟩
      rw [← h, Json.lookup_obj]
      exact listLookup_append_left hl _

theorem runModel_ok_field {fields : List (String × FieldV)} {ea : Bool} {src out : Json}
    {k : String} {fv : FieldV}
    (h : runModel fields ea src = .ok out) (hf : fvLookup fields k = some fv) :
    ∃ v, fv (src.lookup k) = .ok v := by
  obtain ⟨v, hv, _⟩ := runModel_lookup h hf
  exact ⟨v, hv⟩

theorem merge_provenance_null_ok (facts : Json) :
    ∃ l, merge_provenance Json.null facts = .ok l := by
  unfold merge_provenance
  have h : mergeHandlerProv Json.null = .ok [] := rfl
  rw [h]
  simp only [Bind.bind, Except.bind]
  split
  · exact ⟨[], rfl⟩
  · exact ⟨_, rfl⟩

/-- Shape of the final response envelope after DecisionResponseModel
validation, whichever way the validation goes: status complete, the two
confidence fields carry the overall confidence, and a string notes value
of the handler result is preserved under result.notes. -/
theorem validateFinal_shape (act : ActIntent) (hr : Json) (q : ℚ) (prov : List Json) (tid : Json) :
    respStatus (validateFinal (finalRespObj act hr q prov tid)) = Json.str "complete" ∧
    respConfidence (validateFinal (finalRespObj act hr q prov tid)) = Json.num q ∧
    respResultConfidence (validateFinal (finalRespObj act hr q prov tid)) = Json.num q ∧
    ∀ s : String, hr.get "notes" = Json.str s →
      (respResult (validateFinal (finalRespObj act hr q prov tid))).get "notes" = Json.str s := by
  unfold validateFinal
  cases h : parseDecisionResponse (finalRespObj act hr q prov tid) with
  | error m =>
    refine ⟨rfl, rfl, rfl, ?_⟩
    intro s hs
    show (hr.get "notes") = Json.str s
    exact hs
  | ok d =>
    unfold parseDecisionResponse at h
    obtain ⟨v1, hv1, hd1⟩ := runModel_lookup h (show fvLookup _ "status" = some _ from rfl)
    have hv1b : (Except.ok (Json.str "complete") : Except String Json) = .ok v1 := hv1
    injection hv1b with hv1c
    obtain ⟨v2, hv2, hd2⟩ := runModel_lookup h (show fvLookup _ "confidence" = some fOptFloat from rfl)
    have hv2b : (Except.ok (Json.num q) : Except String Json) = .ok v2 := hv2
    injection hv2b with hv2c
    obtain ⟨v3, hv3, hd3⟩ := runModel_lookup h
      (show fvLookup _ "result" = some (fOptModel parseDecisionResult) from rfl)
    have hv3b : parseDecisionResult (Json.obj [("action", hr.get "action"),
        ("items", hr.get "items"), ("confidence", Json.num q), ("notes", hr.get "notes")])
        = .ok v3 := hv3
    unfold parseDecisionResult at hv3b
    obtain ⟨w2, hw2, he2⟩ := runModel_lookup hv3b (show fvLookup _ "confidence" = some fOptFloat from rfl)
    have hw2b : (Except.ok (Json.num q) : Except String Json) = .ok w2 := hw2
    injection hw2b with hw2c
    refine ⟨?_, ?_, ?_, ?_⟩
    · show d.get "status" = Json.str "complete"
      unfold Json.get
      rw [hd1, ← hv1c]
      rfl
    · show d.get "confidence" = Json.num q
      unfold Json.get
      rw [hd2, ← hv2c]
      rfl
    · show (d.get "result").get "confidence" = Json.num q
      unfold Json.get
      rw [hd3]
      show (v3.lookup "confidence").getD Json.null = Json.num q
      rw [he2, ← hw2c]
      rfl
    · intro s hs
      obtain ⟨w4, hw4, he4⟩ := runModel_lookup hv3b (show fvLookup _ "notes" = some fOptStr from rfl)
      have hw4b : fOptStr (some (hr.get "notes")) = .ok w4 := hw4
      rw [hs] at hw4b
      have hw4c : (Except.ok (Json.str s) : Except String Json) = .ok w4 := hw4b
      injection hw4c with hw4d
      show (d.get "result").get "notes" = Json.str s
      unfold Json.get
      rw [hd3]
      show (v3.lookup "notes").getD Json.null = Json.str s
      rw [he4, ← hw4d]
      rfl

/-- The probabilistic OR over the single handler collapses to the
clamped handler confidence. -/
theorem overall_eq_clamp (c : ℚ) : qSub 1 (qMul 1 (qSub 1 (qClamp01 c))) = qClamp01 c := by
  rw [qSub_eq, qMul_eq, qSub_eq]
  ring

/-- finishResponse is validateFinal on the assembled envelope, for some
prioritized provenance list. -/
theorem finishResponse_shape (act : ActIntent) (facts : Json) (outcome : PyM Json) (tid : Json) :
    ∃ prov : List Json,
      finishResponse act facts outcome tid =
        validateFinal (finalRespObj act
          (jsonSet (normalizedHandlerResult outcome) "confidence"
            (Json.num (qClamp01 (finalHandlerConf (normalizedHandlerResult outcome)))))
          (qSub 1 (qMul 1 (qSub 1 (qClamp01 (qClamp01 (finalHandlerConf (normalizedHandlerResult outcome)))))))
          prov tid) :=
  ⟨_, rfl⟩

/-- Bind inversion for Except. -/
theorem except_bind_ok {ε α β : Type} {x : Except ε α} {f : α → Except ε β} {b : β}
    (h : x >>= f = .ok b) : ∃ a, x = .ok a ∧ f a = .ok b := by
  cases x with
  | error e => simp [Bind.bind, Except.bind] at h
  | ok a => exact ⟨a, rfl, by simpa [Bind.bind, Except.bind] using h⟩

/-- A validated act intent implies every tool call of the payload parsed
successfully. -/
theorem parseActIntent_toolCall_ok {payload : Json} {act : ActIntent}
    (h : parseActIntent payload = .ok act) :
    ∀ tc ∈ (payload.get "tool_calls").elems, ∃ r, parseToolCall tc = .ok r := by
  intro tc htc
  unfold parseActIntent at h
  by_cases hobj : !payload.isObj
  · rw [if_pos hobj] at h; cases h
  · rw [if_neg hobj] at h
    cases hI : payload.lookup "intent" with
    | none => rw [hI] at h; exact Except.noConfusion h
    | some iv =>
      rw [hI] at h
      rcases iv with _ | b | q | s1 | _ | ⟨e1, e2⟩ | _ | ⟨k1, v1, r1⟩
      · exact Except.noConfusion h
      · exact Except.noConfusion h
      · exact Except.noConfusion h
      · dsimp only at h
        try simp only [Bind.bind, Except.bind] at h
        cases hD : payload.lookup "decision_template" with
        | none => rw [hD] at h; exact Except.noConfusion h
        | some dv =>
          rw [hD] at h
          rcases dv with _ | b2 | q2 | s2 | _ | ⟨f1, f2⟩ | _ | ⟨k2, v2, r2⟩
          · exact Except.noConfusion h
          · exact Except.noConfusion h
          · exact Except.noConfusion h
          · dsimp only at h
            try simp only [Bind.bind, Except.bind] at h
            cases hl : payload.lookup "tool_calls" with
            | none => rw [hl] at h; exact Except.noConfusion h
            | some v =>
              rw [hl] at h
              dsimp only at h
              by_cases hv : v.isArr = true
              · rw [if_pos hv] at h
                obtain ⟨tcs, htcs, _⟩ := except_bind_ok h
                have hget : payload.get "tool_calls" = v := by
                  unfold Json.get
                  rw [hl]
                  rfl
                rw [hget] at htc
                exact mapM_mem_ok parseToolCall v.elems tcs htcs tc htc
              · rw [if_neg hv] at h
                exact Except.noConfusion h
          · exact Except.noConfusion h
          · exact Except.noConfusion h
          · exact Except.noConfusion h
          · exact Except.noConfusion h
      · exact Except.noConfusion h
      · exact Except.noConfusion h
      · exact Except.noConfusion h
      · exact Except.noConfusion h

/-! ## Claims C3, C9, C10 -/

/-- Claim C3 (corrected). The original claim asserts both confidence and
every item score lie in the unit interval; the item-score half fails
(scores are passed through unclamped, see the counterexample), while the
confidence half holds for every payload: a returned response either has
a null result with top-level confidence 0 (invalid_input or
handler_not_found), or its result.confidence and top-level confidence
agree and lie in the unit interval. -/
theorem C3_theorem (payload r : Json) (h : processActIntent payload = .ok r) :
    (respResult r = Json.null ∧ respConfidence r = Json.num 0) ∨
    (∃ q : ℚ, respResultConfidence r = Json.num q ∧ respConfidence r = Json.num q ∧
      0 ≤ q ∧ q ≤ 1) := by
  unfold processActIntent at h
  obtain ⟨t, ht, h⟩ := except_bind_ok h
  dsimp only at h
  cases hp : parseActIntent payload with
  | error e =>
    rw [hp] at h
    dsimp only at h
    injection h with h
    subst h
    exact Or.inl ⟨rfl, rfl⟩
  | ok act =>
    rw [hp] at h
    dsimp only at h
    cases hd : dispatchOutcome act with
    | none =>
      rw [hd] at h
      dsimp only at h
      injection h with h
      subst h
      exact Or.inl ⟨rfl, rfl⟩
    | some outcome =>
      rw [hd] at h
      dsimp only at h
      injection h with h
      subst h
      right
      obtain ⟨prov, heq⟩ :=
        finishResponse_shape act (engineFacts act) outcome (pyOr t (Json.str trace_id_const))
      rw [heq]
      obtain ⟨h1, h2, h3, _⟩ := validateFinal_shape act
        (jsonSet (normalizedHandlerResult outcome) "confidence"
          (Json.num (qClamp01 (finalHandlerConf (normalizedHandlerResult outcome)))))
        (qSub 1 (qMul 1 (qSub 1
          (qClamp01 (qClamp01 (finalHandlerConf (normalizedHandlerResult outcome)))))))
        prov (pyOr t (Json.str trace_id_const))
      refine ⟨_, h3, h2, ?_, ?_⟩
      · rw [overall_eq_clamp]
        exact (qClamp01_bounds _).1
      · rw [overall_eq_clamp]
        exact (qClamp01_bounds _).2

/-- Witness for C3 at the c3 payload. -/
theorem C3_witness :
    (respResult c3Resp = Json.null ∧ respConfidence c3Resp = Json.num 0) ∨
    (∃ q : ℚ, respResultConfidence c3Resp = Json.num q ∧ respConfidence c3Resp = Json.num q ∧
      0 ≤ q ∧ q ≤ 1) :=
  C3_theorem c3Payload c3Resp (by decide)

/-- Counterexample for C3 as stated: the c3 payload yields an item with
score 5, outside the unit interval. -/
theorem C3_counterexample :
    (processActIntent c3Payload).map (fun r => (respResultItems r).map itemScore)
      = .ok [Json.num 5] ∧ ¬ ((5 : ℚ) ≤ 1) :=
  ⟨by decide, by norm_num⟩

set_option maxHeartbeats 2000000 in
/-- Claim C9 (confirmed). A raising handler is caught: the engine still
returns a complete response whose result carries confidence 0.0 and a
note naming the exception type and message. -/
theorem C9_theorem (payload t : Json) (act : ActIntent) (e : PyExc)
    (ht : payload.getE "trace_id" = .ok t)
    (ha : parseActIntent payload = .ok act)
    (he : dispatchOutcome act = some (.error e)) :
    ∃ r, processActIntent payload = .ok r ∧
      respStatus r = Json.str "complete" ∧
      respResultConfidence r = Json.num 0 ∧
      respConfidence r = Json.num 0 ∧
      (respResult r).get "notes" =
        Json.str ("handler error: " ++ e.name ++ ": " ++ e.msg) := by
  refine ⟨finishResponse act (engineFacts act) (.error e) (pyOr t (Json.str trace_id_const)),
    ?_, ?_, ?_, ?_, ?_⟩
  · unfold processActIntent
    rw [ht]
    simp only [Bind.bind, Except.bind]
    rw [ha]
    dsimp only
    rw [he]
  · obtain ⟨prov, heq⟩ :=
      finishResponse_shape act (engineFacts act) (.error e) (pyOr t (Json.str trace_id_const))
    rw [heq]
    exact (validateFinal_shape _ _ _ _ _).1
  · obtain ⟨prov, heq⟩ :=
      finishResponse_shape act (engineFacts act) (.error e) (pyOr t (Json.str trace_id_const))
    rw [heq]
    have h1 : finalHandlerConf (normalizedHandlerResult (Except.error e : PyM Json)) = 0 := rfl
    have h2 : qSub 1 (qMul 1 (qSub 1 (qClamp01 (qClamp01 (0:ℚ))))) = 0 := by decide
    rw [h1, h2]
    exact (validateFinal_shape act _ 0 prov _).2.2.1
  · obtain ⟨prov, heq⟩ :=
      finishResponse_shape act (engineFacts act) (.error e) (pyOr t (Json.str trace_id_const))
    rw [heq]
    have h1 : finalHandlerConf (normalizedHandlerResult (Except.error e : PyM Json)) = 0 := rfl
    have h2 : qSub 1 (qMul 1 (qSub 1 (qClamp01 (qClamp01 (0:ℚ))))) = 0 := by decide
    rw [h1, h2]
    exact (validateFinal_shape act _ 0 prov _).2.1
  · obtain ⟨prov, heq⟩ :=
      finishResponse_shape act (engineFacts act) (.error e) (pyOr t (Json.str trace_id_const))
    rw [heq]
    have hnotes : (jsonSet (normalizedHandlerResult (Except.error e : PyM Json)) "confidence"
        (Json.num (qClamp01 (finalHandlerConf (normalizedHandlerResult
          (Except.error e : PyM Json)))))).get "notes"
        = Json.str ("handler error: " ++ e.name ++ ": " ++ e.msg) := rfl
    exact (validateFinal_shape act _ _ prov _).2.2.2
      ("handler error: " ++ e.name ++ ": " ++ e.msg) hnotes

/-- Witness for C9: the c9 payload makes the variety handler raise a
TypeError, and the engine converts it into a zero-confidence result. -/
theorem C9_witness :
    ∃ r, processActIntent c9Payload = .ok r ∧
      respStatus r = Json.str "complete" ∧
      respResultConfidence r = Json.num 0 ∧
      respConfidence r = Json.num 0 ∧
      (respResult r).get "notes" =
        Json.str ("handler error: " ++ "TypeError" ++ ": " ++ "argument is not iterable") :=
  C9_theorem c9Payload Json.null c9Act ⟨"TypeError", "argument is not iterable"⟩
    (by decide) (by decide) (by decide)

/-- Claim C10 (confirmed). A tool call with a known tool name whose
output fails the strict per-tool schema makes the whole act-intent
validation fail, so process_act_intent returns the invalid_input
response: status invalid_input, null result, confidence 0; no facts are
built and no handler runs. -/
theorem C10_theorem (payload t tc : Json) (s m : String)
    (ht : payload.getE "trace_id" = .ok t)
    (htc : tc ∈ (payload.get "tool_calls").elems)
    (hname : tc.get "tool" = Json.str s)
    (hknown : s ∈ toolNameLiterals)
    (hfail : parseToolCall tc = .error m) :
    processActIntent payload = .ok (invalidInputResponse payload (pyOr t (Json.str trace_id_const))) ∧
    respStatus (invalidInputResponse payload (pyOr t (Json.str trace_id_const))) = Json.str "invalid_input" ∧
    respResult (invalidInputResponse payload (pyOr t (Json.str trace_id_const))) = Json.null ∧
    respConfidence (invalidInputResponse payload (pyOr t (Json.str trace_id_const))) = Json.num 0 := by
  refine ⟨?_, rfl, rfl, rfl⟩
  unfold processActIntent
  rw [ht]
  simp only [Bind.bind, Except.bind]
  cases hpp : parseActIntent payload with
  | error e => rfl
  | ok act =>
    obtain ⟨r0, hr0⟩ := parseActIntent_toolCall_ok hpp tc htc
    rw [hfail] at hr0
    cases hr0

/-- Witness for C10: a weather_outlook output whose tmin_c is a bare
number fails the weather schema and the request is rejected wholesale. -/
theorem C10_witness :
    processActIntent c10Payload
      = .ok (invalidInputResponse c10Payload (pyOr Json.null (Json.str trace_id_const))) ∧
    respStatus (invalidInputResponse c10Payload (pyOr Json.null (Json.str trace_id_const)))
      = Json.str "invalid_input" ∧
    respResult (invalidInputResponse c10Payload (pyOr Json.null (Json.str trace_id_const)))
      = Json.null ∧
    respConfidence (invalidInputResponse c10Payload (pyOr Json.null (Json.str trace_id_const)))
      = Json.num 0 :=
  C10_theorem c10Payload Json.null
    (Json.obj [("tool", Json.str "weather_outlook"), ("output", Json.obj [("tmin_c", Json.num 5)])])
    "weather_outlook" "Tool output failed schema validation: list expected"
    (by decide) (by decide) (by decide) (by decide) (by decide)

/-! ## Claims C1, C2, C4, C5, C6 -/

/-- Claim C1 (corrected). As stated the claim fails twice over: the
variety handler synthesizes varieties from calendar data when
variety_lookup alone is missing (see the counterexample), and the
response-level missing list is always empty because the orchestrator
drops the handler-level missing list.  What holds: with an empty facts
map every registered handler reports require_more_info and names its
required tools in the handler-level missing list, the engine response
keeps result.action == require_more_info with status complete, and the
response-level missing list is []. -/
theorem C1_theorem : ∀ p ∈ routedGateCases,
    (match parseActIntent (gatePayload p.1) with
     | .ok act => (dispatchOutcome act).map (fun o =>
         o.map (fun hr => (hr.get "action", hr.get "missing")))
     | .error _ => none)
      = some (.ok (Json.str "require_more_info", Json.arr (p.2.map Json.str))) ∧
    (processActIntent (gatePayload p.1)).map respResultAction = .ok (Json.str "require_more_info") ∧
    (processActIntent (gatePayload p.1)).map respStatus = .ok (Json.str "complete") ∧
    (processActIntent (gatePayload p.1)).map respMissing = .ok (Json.arr []) := by decide

/-- Witness for C1 at the market_advice intent. -/
theorem C1_witness :
    (match parseActIntent (gatePayload "market_advice") with
     | .ok act => (dispatchOutcome act).map (fun o =>
         o.map (fun hr => (hr.get "action", hr.get "missing")))
     | .error _ => none)
      = some (.ok (Json.str "require_more_info", Json.arr (["prices_fetch"].map Json.str))) ∧
    (processActIntent (gatePayload "market_advice")).map respResultAction
      = .ok (Json.str "require_more_info") ∧
    (processActIntent (gatePayload "market_advice")).map respStatus
      = .ok (Json.str "complete") ∧
    (processActIntent (gatePayload "market_advice")).map respMissing
      = .ok (Json.arr []) :=
  C1_theorem ("market_advice", ["prices_fetch"]) (by decide)

/-- Counterexample for C1 as stated: variety_selection is registered,
variety_lookup is a required tool absent from the facts map, yet the
response action is variety_ranked_list (not require_more_info) and the
missing list is empty. -/
theorem C1_counterexample :
    INTENT_ROUTING_required_tools "variety_selection"
      = some ["variety_lookup", "calendar_lookup"] ∧
    (parseActIntent c1Payload).map (fun act => (engineFacts act).hasKey "variety_lookup")
      = .ok false ∧
    (processActIntent c1Payload).map respResultAction = .ok (Json.str "variety_ranked_list") ∧
    (processActIntent c1Payload).map respMissing = .ok (Json.arr []) := by decide

/-- Claim C2 (corrected). The 3300, 3350, 3400 series has a predicted
rise of only about 1.47 percent, below the 3 percent hold threshold, so
the code recommends sell, not hold; a rising series that does clear the
threshold with low volatility (3000, 3150, 3300) yields hold, and flat
or falling series yield sell. -/
theorem C2_theorem :
    (MarketAdvice.handle marketIntent (marketFacts 3300 3350 3400)).map
      (fun r => (r.get "items").elems.map itemName) = .ok [Json.str "sell"] ∧
    (MarketAdvice.handle marketIntent (marketFacts 3000 3150 3300)).map
      (fun r => (r.get "items").elems.map itemName) = .ok [Json.str "hold"] ∧
    (MarketAdvice.handle marketIntent (marketFacts 3300 3300 3300)).map
      (fun r => (r.get "items").elems.map itemName) = .ok [Json.str "sell"] ∧
    (MarketAdvice.handle marketIntent (marketFacts 3400 3350 3300)).map
      (fun r => (r.get "items").elems.map itemName) = .ok [Json.str "sell"] :=
  ⟨by decide, by decide, by decide, by decide⟩

/-- Counterexample for C2 as stated: on 3300, 3350, 3400 the price
coefficient of variation is below the 0.08 volatility threshold, yet the
recommendation is sell rather than the claimed hold. -/
theorem C2_counterexample :
    (MarketAdvice.handle marketIntent (marketFacts 3300 3350 3400)).map
      (fun r => (r.get "items").elems.map itemName) = .ok [Json.str "sell"] ∧
    (MarketAdvice.compute_trend_and_volatility
      (MarketAdvice.extract_price_history ((marketFacts 3300 3350 3400).get "prices_fetch"))
      14).map (fun st => qLtB st.cov_prices MarketAdvice.VOLATILITY_THRESHOLD) = some true :=
  ⟨by decide, by decide⟩

/-- Claim C4 (corrected). compute_confidence clamps every branch except
the per-tool fallback, which returns the raw mean of the
confidence/conf/score fields found in facts (see the counterexample);
the result lies in the unit interval whenever those per-tool values
do. -/
theorem C4_theorem (signals facts : Json) (required_tools : List String)
    (h : ∀ c ∈ toolConfVals facts, 0 ≤ c ∧ c ≤ 1) :
    0 ≤ compute_confidence signals facts required_tools ∧
      compute_confidence signals facts required_tools ≤ 1 := by
  unfold compute_confidence
  dsimp only
  split
  · exact qClamp01_bounds _
  · split
    · split
      · rename_i hne
        apply qMean_mem
        · intro hnil
          rw [hnil] at hne
          simp at hne
        · intro c hc
          apply h
          by_cases hf : facts.truthy = true
          · rwa [pyOr_truthy _ hf] at hc
          · have hft : facts.truthy = false := by
              revert hf
              cases facts.truthy <;> simp
            rw [pyOr_falsy _ hft] at hc
            have hempty : toolConfVals (Json.obj []) = [] := rfl
            rw [hempty] at hc
            cases hc
      · constructor <;> norm_num [Rat.mkRat_eq_div]
    · unfold ccWeighted
      dsimp only
      exact qClamp01_bounds _

/-- Witness for C4 with an empty facts map. -/
theorem C4_witness :
    0 ≤ compute_confidence (Json.obj []) (Json.obj []) [] ∧
      compute_confidence (Json.obj []) (Json.obj []) [] ≤ 1 :=
  C4_theorem (Json.obj []) (Json.obj []) [] (by decide)

/-- Counterexample for C4 as stated: a facts map with a single tool
confidence of 5 makes the fallback return 5, outside the unit
interval. -/
theorem C4_counterexample :
    compute_confidence (Json.obj []) c4Facts [] = 5 ∧
      ¬ (compute_confidence (Json.obj []) c4Facts [] ≤ 1) := by
  have h : compute_confidence (Json.obj []) c4Facts [] = 5 := by decide
  exact ⟨h, by rw [h]; norm_num⟩

/-- The severity scale in ordinary field arithmetic. -/
theorem severity_eq (d : ℚ) :
    TemperatureRisk.severity_from_difference d =
      if d ≤ 0 then 0
      else if d ≤ 1 then 1/10 + d * (2/10)
      else if d ≤ 3 then 3/10 + ((d - 1)/2) * (4/10)
      else 7/10 + (min (d - 3) 7 / 7) * (3/10) := by
  unfold TemperatureRisk.severity_from_difference
  simp only [qLeB_iff, qAdd_eq, qMul_eq, qDiv_eq, qSub_eq, qMin_eq]
  split_ifs with h1 h2 h3
  · rfl
  · norm_num [Rat.mkRat_eq_div]
  · norm_num [Rat.mkRat_eq_div]
  · rw [show (mkRat 7 10 : ℚ) = 7/10 from by norm_num [Rat.mkRat_eq_div],
      show (mkRat 3 10 : ℚ) = 3/10 from by norm_num [Rat.mkRat_eq_div]]
    have h4 : 0 ≤ min (d - 3) 7 := le_min (by push_neg at h3; linarith) (by norm_num)
    have h5 : min (d - 3) 7 ≤ 7 := min_le_right _ _
    exact qClamp01_of_mem _ (by nlinarith) (by nlinarith)

/-- Claim C5 (corrected). severity(0) = 0 holds, and severity is
strictly increasing on breach magnitudes up to 10 °C; beyond 10 °C the
excess term saturates and severity is the constant 1, so strict
monotonicity over all 0 < d1 < d2 fails (see the counterexample). -/
theorem C5_theorem :
    TemperatureRisk.severity_from_difference 0 = 0 ∧
    (∀ d1 d2 : ℚ, 0 < d1 → d1 < d2 → d2 ≤ 10 →
      TemperatureRisk.severity_from_difference d1 < TemperatureRisk.severity_from_difference d2) ∧
    (∀ d : ℚ, 10 ≤ d → TemperatureRisk.severity_from_difference d = 1) := by
  refine ⟨by decide, ?_, ?_⟩
  · intro d1 d2 h1 h12 h10
    rw [severity_eq d1, severity_eq d2]
    rw [if_neg (by linarith : ¬ d1 ≤ 0), if_neg (by linarith : ¬ d2 ≤ 0)]
    rcases le_or_lt d1 1 with ha1 | ha1
    · rw [if_pos ha1]
      rcases le_or_lt d2 1 with hb1 | hb1
      · rw [if_pos hb1]
        linarith
      · rw [if_neg (by linarith)]
        rcases le_or_lt d2 3 with hb3 | hb3
        · rw [if_pos hb3]
          nlinarith
        · rw [if_neg (by linarith), min_eq_left (by linarith : d2 - 3 ≤ 7)]
          nlinarith
    · rw [if_neg (by linarith)]
      rcases le_or_lt d1 3 with ha3 | ha3
      · rw [if_pos ha3]
        rcases le_or_lt d2 3 with hb3 | hb3
        · rw [if_neg (by linarith), if_pos hb3]
          nlinarith
        · rw [if_neg (by linarith), if_neg (by linarith),
            min_eq_left (by linarith : d2 - 3 ≤ 7)]
          nlinarith
      · rw [if_neg (by linarith), if_neg (by linarith), if_neg (by linarith),
          min_eq_left (by linarith : d1 - 3 ≤ 7), min_eq_left (by linarith : d2 - 3 ≤ 7)]
        nlinarith
  · intro d hd
    rw [severity_eq]
    rw [if_neg (by linarith), if_neg (by linarith), if_neg (by linarith),
      min_eq_right (by linarith : (7:ℚ) ≤ d - 3)]
    norm_num

/-- Witness for C5 at concrete magnitudes. -/
theorem C5_witness :
    TemperatureRisk.severity_from_difference 0 = 0 ∧
    TemperatureRisk.severity_from_difference 1 < TemperatureRisk.severity_from_difference 2 ∧
    TemperatureRisk.severity_from_difference 10 = 1 :=
  ⟨C5_theorem.1, C5_theorem.2.1 1 2 (by norm_num) (by norm_num) (by norm_num),
   C5_theorem.2.2 10 (by norm_num)⟩

/-- Counterexample for C5 as stated: the severity at 11 equals the
severity at 12, so severity is not strictly increasing in d. -/
theorem C5_counterexample :
    TemperatureRisk.severity_from_difference 11 = TemperatureRisk.severity_from_difference 12 ∧
    (0:ℚ) < 11 ∧ (11:ℚ) < 12 :=
  ⟨by decide, by norm_num, by norm_num⟩

/-- Claim C6 (corrected). build_facts_from_toolcalls assigns
facts[tool] = output in call order, so on duplicate tool names the
LAST entry wins, not the first: for any list containing two entries
under the same tool name with no later rebinding of it, the facts map
carries the later output. -/
theorem C6_theorem (l1 l2 l3 : List (String × Json)) (t : String) (o1 o2 : Json)
    (h : t ∉ l3.map Prod.fst) :
    (build_facts_from_toolcalls (l1 ++ (t, o1) :: l2 ++ (t, o2) :: l3)).lookup t = some o2 := by
  unfold build_facts_from_toolcalls
  rw [Json.lookup_obj]
  rw [List.foldl_append, List.foldl_cons, List.foldl_append, List.foldl_cons]
  rw [foldl_assocSet_not_mem t l3 _ h]
  exact listLookup_assocSet_self _ t o2

/-- Witness for C6 on a two-entry duplicate. -/
theorem C6_witness :
    (build_facts_from_toolcalls [("a", Json.num 1), ("a", Json.num 2)]).lookup "a"
      = some (Json.num 2) :=
  C6_theorem [] [] [] "a" (Json.num 1) (Json.num 2) (by decide)

/-- Counterexample for C6 as stated: two weather_outlook tool calls with
lat 1 then lat 2; the handler facts carry lat 2 (last wins), not the
claimed first-seen output. -/
theorem C6_counterexample :
    (parseActIntent c6Payload).map (fun act => act.tool_calls.map Prod.fst)
      = .ok ["weather_outlook", "weather_outlook"] ∧
    (parseActIntent c6Payload).map
      (fun act => ((engineFacts act).get "weather_outlook").get "lat") = .ok (Json.num 2) := by
  exact ⟨by decide, by decide⟩

/-! ## Claim C7 -/

theorem get_items_of_gate_obj (a c n m : Json) :
    ((Json.obj [("action", a), ("items", Json.arr []), ("confidence", c), ("notes", n),
      ("missing", m)]).get "items").elems = [] := rfl

theorem get_items_of_handler_obj (a hc c n : Json) (l : List Json) :
    ((Json.obj [("action", a), ("items", Json.arr l), ("handler_confidence", hc),
      ("confidence", c), ("notes", n)]).get "items").elems = l := by
  show (Json.arr l).elems = l
  exact Json.elems_arr l

/-- The success tail of the pesticide handler never emits an item whose
numeric meta.phi_days exceeds a known days_to_harvest, because its input
went through the PHI hard filter. -/
theorem pesticideSuccess_phi (facts : Json) (d : ℚ) (cands : List PesticideAdvice.Cand) :
    ∀ it ∈ ((PesticideAdvice.pesticideSuccess facts
        (PesticideAdvice.phiFiltered (some d) cands)).get "items").elems,
      ∀ q : ℚ, itemMetaPhiDays it = Json.num q → q ≤ d := by
  intro it hit q hq
  have harr : (PesticideAdvice.pesticideSuccess facts
      (PesticideAdvice.phiFiltered (some d) cands)).get "items"
      = Json.arr (((List.insertionSort PesticideAdvice.confGe
          (PesticideAdvice.phiFiltered (some d) cands)).take 5).map
          (PesticideAdvice.candItem (match merge_provenance Json.null facts with
            | .ok merged => merged
            | .error _ => []))) := rfl
  rw [harr, Json.elems_arr] at hit
  obtain ⟨c, hc, hfc⟩ := List.mem_map.mp hit
  have hcs := List.take_subset _ _ hc
  have hcf := (List.perm_insertionSort PesticideAdvice.confGe _).mem_iff.mp hcs
  unfold PesticideAdvice.phiFiltered at hcf
  have hpred := List.of_mem_filter hcf
  subst hfc
  have hq2 : c.meta.get "phi_days" = Json.num q := hq
  rw [hq2] at hpred
  have hp2 : (!(qLtB d q)) = true := hpred
  have hp3 : qLtB d q = false := by simpa using hp2
  by_contra hgt
  push_neg at hgt
  rw [(qLtB_iff d q).mpr hgt] at hp3
  cases hp3

/-- Claim C7 (confirmed). Whenever days_to_harvest resolves (from the
intent or the calendar facts), the pesticide handler hard-filters every
candidate whose declared PHI exceeds it, so no returned item carries a
numeric meta.phi_days above days_to_harvest. -/
theorem C7_theorem (intent : ActIntent) (facts r : Json) (d : ℚ)
    (hr : PesticideAdvice.handle intent facts = .ok r)
    (hd : PesticideAdvice.daysToHarvestOf intent facts = some d) :
    ∀ it ∈ (r.get "items").elems, ∀ q : ℚ, itemMetaPhiDays it = Json.num q → q ≤ d := by
  intro it hit q hq
  unfold PesticideAdvice.handle at hr
  dsimp only at hr
  rw [hd] at hr
  repeat' split at hr
  all_goals
    injection hr with hr
    subst hr
    first
      | (rw [get_items_of_gate_obj] at hit; cases hit)
      | exact pesticideSuccess_phi facts d _ it hit q hq

/-- Witness for C7: on the c7 scenario (days_to_harvest 20) the first
returned item is product A with phi_days 7. -/
theorem C7_witness : (7:ℚ) ≤ 20 :=
  C7_theorem c7Intent c7Facts c7Result 20 (by decide) (by decide)
    ((c7Result.get "items").elems.headD Json.null) (by decide) 7 (by decide)

/-! ## Claim C8 -/

/-- The dedup-fold pattern of provenance.py returns a sublist of the
mapped input. -/
theorem foldDedup_sublist {α β κ : Type} [BEq κ] (k : α → κ) (g : α → β) :
    ∀ (l : List α) (acc : List κ × List β),
      ((l.foldl (fun acc t => if acc.1.contains (k t) then acc
        else (k t :: acc.1, acc.2 ++ [g t])) acc).2).Sublist (acc.2 ++ l.map g) := by
  intro l
  induction l with
  | nil =>
    intro acc
    simp
  | cons t rest ih =>
    intro acc
    rw [List.foldl_cons, List.map_cons]
    by_cases hc : acc.1.contains (k t) = true
    · rw [if_pos hc]
      exact (ih acc).trans (List.Sublist.append_left (List.sublist_cons_self _ _) _)
    · rw [if_neg hc]
      have := ih (k t :: acc.1, acc.2 ++ [g t])
      rw [List.append_assoc] at this
      exact this

/-- The dedup-fold pattern never emits two entries with the same key. -/
theorem foldDedup_nodup {α β κ : Type} [BEq κ] [LawfulBEq κ] (k : α → κ) (g : α → β)
    (kb : β → κ) (hk : ∀ a, kb (g a) = k a) :
    ∀ (l : List α) (acc : List κ × List β),
      ((acc.2.map kb).Nodup) → (∀ b ∈ acc.2, kb b ∈ acc.1) →
      (((l.foldl (fun acc t => if acc.1.contains (k t) then acc
        else (k t :: acc.1, acc.2 ++ [g t])) acc).2).map kb).Nodup := by
  intro l
  induction l with
  | nil =>
    intro acc h1 _
    exact h1
  | cons t rest ih =>
    intro acc h1 h2
    rw [List.foldl_cons]
    by_cases hc : acc.1.contains (k t) = true
    · rw [if_pos hc]
      exact ih acc h1 h2
    · rw [if_neg hc]
      apply ih
      · rw [List.map_append, List.map_cons, List.map_nil, hk]
        refine List.Nodup.append h1 (List.nodup_singleton _) ?_
        intro x hx hx2
        rw [List.mem_singleton] at hx2
        subst hx2
        obtain ⟨b, hb, hkb⟩ := List.mem_map.mp hx
        exact hc (by simpa [List.elem_eq_mem] using (hkb ▸ h2 b hb))
      · intro b hb
        rcases List.mem_append.mp hb with hb | hb
        · exact List.mem_cons_of_mem _ (h2 b hb)
        · rw [List.mem_singleton] at hb
          subst hb
          rw [hk]
          exact List.mem_cons_self _ _

/-- The sort relation of prioritize_provenance orders weights
descending. -/
theorem provLe_weight {a b : Nat × Json × ℚ} (h : provLe a b) : b.2.2 ≤ a.2.2 := by
  unfold provLe provLeB at h
  simp only [Bool.or_eq_true, Bool.and_eq_true, beq_iff_eq, decide_eq_true_eq, qLtB_iff] at h
  rcases h with h | ⟨h, _⟩
  · exact le_of_lt h
  · exact le_of_eq h.symm

/-- The ordered-loop cleanup of merge_provenance does not change the
source-type weight of an entry. -/
theorem provWeight_orderedEntry (p : Json) : provWeight (orderedEntry p) = provWeight p := by
  unfold orderedEntry
  by_cases hs : (p.get "source_id").truthy = true
  · rw [if_pos hs]
    rfl
  · rw [if_neg hs]
    show sourceTypeWeightOf (pyOr (pyOr (p.get "source_type") (Json.str "unknown"))
      (Json.str "unknown")) = sourceTypeWeightOf (pyOr (p.get "source_type") (Json.str "unknown"))
  
    by_cases ht : (p.get "source_type").truthy = true
    · rw [pyOr_truthy _ ht, pyOr_truthy _ ht]
    · have ht2 : (p.get "source_type").truthy = false := by
        revert ht
        cases (p.get "source_type").truthy <;> simp
      rw [pyOr_falsy _ ht2]
      rw [pyOr_truthy _ (show (Json.str "unknown").truthy = true from rfl)]

/-- prioritize_provenance emits entries in nonincreasing source-type
weight order. -/
theorem prioritize_provenance_weights (l : List Json) :
    List.Pairwise (fun a b => provWeight b ≤ provWeight a) (prioritize_provenance l) := by
  unfold prioritize_provenance
  split
  · exact List.Pairwise.nil
  · dsimp only
    apply List.Pairwise.sublist
      (foldDedup_sublist (fun t : Nat × Json × ℚ => ((t.2.1).get "source_id", (t.2.1).get "source_type"))
        (fun t : Nat × Json × ℚ => t.2.1) _ ([], []))
    rw [List.nil_append, List.pairwise_map]
    have hsorted : List.Pairwise provLe (List.insertionSort provLe
        ((l.map provNormalize).enum.map (fun pi => (pi.1, pi.2, provWeight pi.2)))) :=
      List.sorted_insertionSort provLe _
    have hmemw : ∀ t ∈ List.insertionSort provLe
        ((l.map provNormalize).enum.map (fun pi => (pi.1, pi.2, provWeight pi.2))),
        t.2.2 = provWeight t.2.1 := by
      intro t htmem
      have ht2 : t ∈ (l.map provNormalize).enum.map (fun pi => (pi.1, pi.2, provWeight pi.2)) :=
        (List.perm_insertionSort provLe _).mem_iff.mp htmem
      obtain ⟨pi, _, hpi⟩ := List.mem_map.mp ht2
      rw [← hpi]
    apply List.Pairwise.imp_of_mem _ hsorted
    intro a b ha hb hab
    have hwa := hmemw a ha
    have hwb := hmemw b hb
    have hw := provLe_weight hab
    rw [hwa, hwb] at hw
    exact hw

/-- Claim C8 (corrected). merge_provenance returns entries in
nonincreasing source-type weight order (the code weight table ranks
unknown at 0.50 ABOVE news_blog at 0.35, contrary to the claimed order),
and its output never contains two entries with the same
(source_id, source_type, tool) triple; deduplication is in fact by the
(source_id, source_type) PAIR, so two entries sharing id and type but
coming from different tools collapse to the higher-priority one (see the
counterexample). -/
theorem C8_theorem (hp facts : Json) (out : List Json)
    (hm : merge_provenance hp facts = .ok out) :
    List.Pairwise (fun a b => provWeight b ≤ provWeight a) out ∧
    (out.map provTripleKey).Nodup := by
  unfold merge_provenance at hm
  obtain ⟨hs, hh, hm⟩ := except_bind_ok hm
  dsimp only at hm
  split at hm
  · injection hm with hm
    subst hm
    constructor <;> simp
  · injection hm with hm
    subst hm
    constructor
    · apply List.Pairwise.sublist
        (foldDedup_sublist (fun entry : Json => (pyOr (entry.get "source_id") (Json.str ""),
          pyOr (entry.get "source_type") (Json.str ""),
          pyOr (entry.get "tool") (Json.str ""))) (fun entry : Json => entry) _ ([], []))
      rw [List.nil_append]
      have hmapid : ∀ (l2 : List Json), l2.map (fun entry => entry) = l2 := fun l2 => l2.map_id
      rw [hmapid, List.pairwise_map]
      apply List.Pairwise.imp _ (prioritize_provenance_weights _)
      intro a b hab
      rw [provWeight_orderedEntry, provWeight_orderedEntry]
      exact hab
    · apply foldDedup_nodup (fun entry : Json => (pyOr (entry.get "source_id") (Json.str ""),
        pyOr (entry.get "source_type") (Json.str ""),
        pyOr (entry.get "tool") (Json.str ""))) (fun entry : Json => entry)
        provTripleKey (fun a => rfl) _ ([], [])
      · simp
      · simp

/-- Witness for C8 on the c8 facts. -/
theorem C8_witness :
    List.Pairwise (fun a b => provWeight b ≤ provWeight a) c8Merged ∧
    (c8Merged.map provTripleKey).Nodup :=
  C8_theorem Json.null c8Facts c8Merged (by decide)

/-- Counterexample for C8 as stated: the untyped source srcB (weight
unknown = 0.50) is ordered before the news_blog source blogA (0.35),
contradicting the claimed news_blog > unknown order; and two entries
sharing (source_id, source_type) but with different tools collapse to
one, contradicting dedup by the full triple. -/
theorem C8_counterexample :
    merge_provenance Json.null c8Facts = .ok [
      provEntry (Json.str "srcB") (Json.str "unknown") (Json.str "storage_find"),
      provEntry (Json.str "blogA") (Json.str "news_blog") (Json.str "rag_search")] ∧
    merge_provenance Json.null c8DupFacts = .ok [
      provEntry (Json.str "X") (Json.str "government") (Json.str "rag_search")] :=
  ⟨by decide, by decide⟩

end FasalSetu


